import Mathlib

set_option maxRecDepth 8000
set_option maxHeartbeats 2000000

/-!
Verification of the session-negotiating RPC client
(`src/backend/app/services/memmachine_client.py`, class `MemMachineMCPClient`).

The client is embedded shallowly:

* JSON values are the inductive `Json`; Python's `json.loads` is modelled by
  the executable parser `jsonLoads` covering the JSON fragment exchanged by
  the protocol (null, booleans, integers, strings with simple escapes,
  arrays, objects).
* The HTTP transport is a script `Nat → NetResp`: the n-th network call made
  by the client receives the n-th response.  Each executed call is recorded
  in a trace, so "zero network invocations" and "number of attempts" are
  provable statements.
* Client methods become functions in the state monad `MM` over `Env`
  (client fields + script position + trace), returning `Except PyErr`.
  Python exceptions are the `PyErr` values; state updates survive a raise,
  exactly as attribute mutations survive a Python exception.
* The unbounded recursion of `_call_tool` (it re-enters itself on the
  400/401 retry path) is made total with a fuel parameter; exhausting the
  fuel yields the artificial `PyErr.nonTermination`, which models a run
  that never returns.
-/

/-- JSON values as produced by `json.loads`. -/
inductive Json where
  | null : Json
  | bool (b : Bool) : Json
  | num (n : Int) : Json
  | str (s : String) : Json
  | arr (xs : List Json) : Json
  | obj (kvs : List (String × Json)) : Json
deriving Repr

/-- Python exceptions that can escape the client's methods.  All of the
client's own `raise` statements build `ValueError`s (`valueErr`); the
remaining constructors model exceptions coming from library code:
attribute access on a non-dict (`attrErr`), `json.loads` applied to a
non-string (`typeErr`), an uncaught `json.JSONDecodeError`
(`jsonDecodeErr`), dict indexing with a missing key (`keyErr`),
`httpx.ConnectError` / `httpx.TimeoutException` escaping uncaught
(`connectErr` / `timeoutErr`), and `nonTermination` for a run that
exhausts its fuel (models the unbounded retry recursion). -/
inductive PyErr where
  | valueErr (msg : String) : PyErr
  | attrErr : PyErr
  | typeErr : PyErr
  | keyErr : PyErr
  | jsonDecodeErr : PyErr
  | connectErr (msg : String) : PyErr
  | timeoutErr : PyErr
  | nonTermination : PyErr
deriving Repr, DecidableEq

/-- Python `str()` of an exception, as used in the client's f-strings. -/
def pyErrStr : PyErr → String
  | .valueErr m => m
  | .attrErr => "AttributeError"
  | .typeErr => "TypeError"
  | .keyErr => "KeyError"
  | .jsonDecodeErr => "JSONDecodeError"
  | .connectErr m => m
  | .timeoutErr => "ReadTimeout"
  | .nonTermination => "NonTermination"

/-- Python truthiness of a JSON value (`if x:`). -/
def jTruthy : Json → Bool
  | .null => false
  | .bool b => b
  | .num n => n != 0
  | .str s => s != ""
  | .arr xs => !xs.isEmpty
  | .obj kvs => !kvs.isEmpty

/-- Key lookup in a JSON object (first binding wins); `none` on non-objects. -/
def jLookup (j : Json) (key : String) : Option Json :=
  match j with
  | .obj kvs => (kvs.find? (fun p => p.1 == key)).map (fun p => p.2)
  | _ => none

/-- Whether a list of characters occurs inside another (Python `in` on `str`). -/
def listInfix (pat : List Char) : List Char → Bool
  | [] => pat.isEmpty
  | c :: rest => pat.isPrefixOf (c :: rest) || listInfix pat rest

/-- Python `key in j` for a string `key`.  Dicts test keys, lists test
membership (only a string element can equal `key`), strings test for a
substring; other values are not iterable and raise `TypeError`. -/
def pyIn (key : String) (j : Json) : Except PyErr Bool :=
  match j with
  | .obj kvs => .ok (kvs.any (fun p => p.1 == key))
  | .arr xs => .ok (xs.any (fun x => match x with | .str s => s == key | _ => false))
  | .str s => .ok (listInfix key.toList s.toList)
  | _ => .error .typeErr

/-- Python `j[key]` for a string `key`: only dicts support it (missing key
is `KeyError`); lists and strings want integer indices (`TypeError`). -/
def pyIndex (j : Json) (key : String) : Except PyErr Json :=
  match j with
  | .obj _ =>
    match jLookup j key with
    | some v => .ok v
    | none => .error .keyErr
  | _ => .error .typeErr

/-- Python `j.get(key, default)`: dicts only; anything else has no `get`
attribute and raises `AttributeError`. -/
def pyGet (j : Json) (key : String) (dflt : Json) : Except PyErr Json :=
  match j with
  | .obj _ => .ok ((jLookup j key).getD dflt)
  | _ => .error .attrErr

/-- Comma-separated concatenation (Python `", ".join`). -/
def commaJoin : List String → String
  | [] => ""
  | [x] => x
  | x :: xs => x ++ ", " ++ commaJoin xs

mutual

/-- Python `repr` of a value obtained from `json.loads`. -/
def Json.pyRepr : Json → String
  | .null => "None"
  | .bool b => if b then "True" else "False"
  | .num n => toString n
  | .str s => "\x27" ++ s ++ "\x27"
  | .arr xs => "[" ++ commaJoin (pyReprList xs) ++ "]"
  | .obj kvs => "\x7b" ++ commaJoin (pyReprKVs kvs) ++ "\x7d"

/-- `repr`s of list elements. -/
def pyReprList : List Json → List String
  | [] => []
  | x :: xs => Json.pyRepr x :: pyReprList xs

/-- `repr`s of dict entries. -/
def pyReprKVs : List (String × Json) → List String
  | [] => []
  | (k, v) :: kvs => ("\x27" ++ k ++ "\x27: " ++ Json.pyRepr v) :: pyReprKVs kvs

end

/-- Python `str()` of a value obtained from `json.loads` (strings print
bare, containers print their elements' `repr`). -/
def Json.pyStr (j : Json) : String :=
  match j with
  | .str s => s
  | _ => Json.pyRepr j

mutual

/-- Compact JSON serialization, standing in for `json.dumps` in the
diagnostic message of the invalid-parameters branch (the exact layout of
that message is never inspected by a caller). -/
def Json.dumps : Json → String
  | .null => "null"
  | .bool b => if b then "true" else "false"
  | .num n => toString n
  | .str s => "\"" ++ s ++ "\""
  | .arr xs => "[" ++ commaJoin (dumpsList xs) ++ "]"
  | .obj kvs => "\x7b" ++ commaJoin (dumpsKVs kvs) ++ "\x7d"

/-- Serializations of list elements. -/
def dumpsList : List Json → List String
  | [] => []
  | x :: xs => Json.dumps x :: dumpsList xs

/-- Serializations of dict entries. -/
def dumpsKVs : List (String × Json) → List String
  | [] => []
  | (k, v) :: kvs => ("\"" ++ k ++ "\": " ++ Json.dumps v) :: dumpsKVs kvs

end

/-- Whitespace characters stripped by Python's `str.strip()` (the
ASCII/Latin-1 range). -/
def isPySpace (c : Char) : Bool :=
  c.toNat == 32 || (9 ≤ c.toNat && c.toNat ≤ 13)
    || (28 ≤ c.toNat && c.toNat ≤ 31) || c.toNat == 133 || c.toNat == 160

/-- Python `s.strip()`. -/
def pyStrip (s : String) : String :=
  String.mk (((s.toList.dropWhile isPySpace).reverse.dropWhile isPySpace).reverse)

/-- Python `s.rstrip("/")`, applied to the base URL in the constructor. -/
def rstripSlash (s : String) : String :=
  String.mk ((s.toList.reverse.dropWhile (fun c => c == '/')).reverse)

/-- Python truthiness of a string. -/
def sTruthy (s : String) : Bool := s != ""

/-- Python truthiness of `Optional[str]` (`None` and `""` are falsy). -/
def sidTruthy : Option String → Bool
  | some s => sTruthy s
  | none => false

/-! ### A JSON parser modelling `json.loads`

Total by a fuel argument bounding nesting depth; `jsonLoads` supplies
ample fuel.  Parsing fails (returns `none`, i.e. `json.JSONDecodeError`)
on anything outside the supported fragment. -/

/-- Skip JSON whitespace. -/
def skipWs (cs : List Char) : List Char :=
  cs.dropWhile (fun c => c.toNat == 32 || c.toNat == 9 || c.toNat == 10 || c.toNat == 13)

/-- Decode a string escape character. -/
def escChar (c : Char) : Option Char :=
  if c = '"' ∨ c = '\\' ∨ c = '/' then some c
  else if c = 'n' then some (Char.ofNat 10)
  else if c = 't' then some (Char.ofNat 9)
  else if c = 'r' then some (Char.ofNat 13)
  else if c = 'b' then some (Char.ofNat 8)
  else if c = 'f' then some (Char.ofNat 12)
  else none

/-- Parse the body of a JSON string (the opening quote already consumed). -/
def parseStringAux : List Char → Option (List Char × List Char)
  | [] => none
  | c :: rest =>
    if c == '"' then some ([], rest)
    else if c == '\\' then
      match rest with
      | [] => none
      | e :: rest2 =>
        match escChar e with
        | none => none
        | some c2 =>
          match parseStringAux rest2 with
          | none => none
          | some (s, r) => some (c2 :: s, r)
    else
      match parseStringAux rest with
      | none => none
      | some (s, r) => some (c :: s, r)

/-- Parse a run of decimal digits. -/
def parseDigits : List Char → Nat → Nat × List Char
  | [], acc => (acc, [])
  | c :: rest, acc =>
    if c.isDigit then parseDigits rest (acc * 10 + (c.toNat - 48))
    else (acc, c :: rest)

/-- Match an expected literal suffix. -/
def stripLit : List Char → List Char → Option (List Char)
  | [], cs => some cs
  | p :: ps, c :: cs => if p == c then stripLit ps cs else none
  | _ :: _, [] => none

/-- Parse a comma-separated sequence of values ended by `]`, using the
supplied value parser for elements; `fuel` bounds the element count. -/
def sepElems (pv : List Char → Option (Json × List Char)) :
    Nat → List Char → Option (List Json × List Char)
  | 0, _ => none
  | fuel + 1, cs =>
    match pv cs with
    | none => none
    | some (x, r) =>
      match skipWs r with
      | ',' :: r2 =>
        match sepElems pv fuel r2 with
        | none => none
        | some (xs, r3) => some (x :: xs, r3)
      | ']' :: r2 => some ([x], r2)
      | _ => none

/-- Parse a comma-separated sequence of `"key": value` entries ended by
`}`, using the supplied value parser. -/
def sepKVs (pv : List Char → Option (Json × List Char)) :
    Nat → List Char → Option (List (String × Json) × List Char)
  | 0, _ => none
  | fuel + 1, cs =>
    match skipWs cs with
    | '"' :: rest =>
      match parseStringAux rest with
      | none => none
      | some (k, r1) =>
        match skipWs r1 with
        | ':' :: r2 =>
          match pv r2 with
          | none => none
          | some (v, r3) =>
            match skipWs r3 with
            | ',' :: r4 =>
              match sepKVs pv fuel r4 with
              | none => none
              | some (kvs, r5) => some ((String.mk k, v) :: kvs, r5)
            | '\x7d' :: r4 => some ([(String.mk k, v)], r4)
            | _ => none
        | _ => none
    | _ => none

/-- Parse one JSON value (`fuel` bounds both nesting depth and element
counts; structural recursion on the fuel keeps the parser reducible in
the kernel). -/
def parseVal : Nat → List Char → Option (Json × List Char)
  | 0, _ => none
  | fuel + 1, cs =>
    match skipWs cs with
    | [] => none
    | c :: rest =>
      if c == 'n' then (stripLit ['u', 'l', 'l'] rest).map (fun r => (Json.null, r))
      else if c == 't' then (stripLit ['r', 'u', 'e'] rest).map (fun r => (Json.bool true, r))
      else if c == 'f' then (stripLit ['a', 'l', 's', 'e'] rest).map (fun r => (Json.bool false, r))
      else if c == '"' then (parseStringAux rest).map (fun p => (Json.str (String.mk p.1), p.2))
      else if c == '[' then
        match skipWs rest with
        | ']' :: r => some (Json.arr [], r)
        | other => (sepElems (parseVal fuel) fuel other).map (fun p => (Json.arr p.1, p.2))
      else if c == '\x7b' then
        match skipWs rest with
        | '\x7d' :: r => some (Json.obj [], r)
        | other => (sepKVs (parseVal fuel) fuel other).map (fun p => (Json.obj p.1, p.2))
      else if c == '-' then
        match rest with
        | d :: _ =>
          if d.isDigit then
            let p := parseDigits rest 0
            some (Json.num (-(Int.ofNat p.1)), p.2)
          else none
        | [] => none
      else if c.isDigit then
        let p := parseDigits (c :: rest) 0
        some (Json.num (Int.ofNat p.1), p.2)
      else none

/-- Model of `json.loads` (must consume the whole input). -/
def jsonLoads (s : String) : Option Json :=
  let cs := s.toList
  match parseVal (cs.length + 1) cs with
  | some (j, rest) => if (skipWs rest).isEmpty then some j else none
  | none => none

/-! ### Transport model

The client makes four kinds of network invocations.  A transport script
is a function from the invocation counter to the response delivered for
that invocation, and every invocation is appended to a trace, so the
theorems can count network round trips. -/

/-- One network invocation made by the client, as seen by a transport
mock: the streaming GET of `_get_session_id`, the initialize POST, the
initialized-notification POST, and the `tools/call` POST (recording the
session token header and the tool name). -/
inductive NetCall where
  | getSession : NetCall
  | postInit (token : String) : NetCall
  | postNotif (token : String) : NetCall
  | postTool (token : String) (tool : String) : NetCall
deriving Repr, DecidableEq

/-- One line of a server-sent-event response body, at the granularity the
client inspects lines: a line starting with `event: message`, a `data:`
line whose remainder parses (or fails to parse) as JSON, a blank line
(skipped by `if line:`), or any other line. -/
inductive SSELine where
  | event : SSELine
  | data (payload : Option Json) : SSELine
  | blank : SSELine
  | other : SSELine
deriving Repr

/-- A transport response: a connect-level failure, a timeout, or an HTTP
response with a status code, the optional `mcp-session-id` header, the
SSE body lines, and the raw body text used in error messages. -/
inductive NetResp where
  | connectError (msg : String) : NetResp
  | timeout : NetResp
  | http (status : Nat) (sessionHeader : Option String)
      (lines : List SSELine) (body : String) : NetResp

/-- The mutable fields of `MemMachineMCPClient`. -/
structure ClientState where
  base_url : String
  user_id : String
  session_id : Option String
  attempted_init : Bool
  init_failed : Bool
  failure_reason : Option String
deriving Repr, DecidableEq

/-- `self.mcp_url`. -/
def mcpUrl (st : ClientState) : String := st.base_url ++ "/mcp/"

/-- `MemMachineMCPClient.__init__` (session fields start empty; the base
URL is right-stripped of slashes). -/
def mkClient (base_url user_id : String) : ClientState :=
  { base_url := rstripSlash base_url
    user_id := user_id
    session_id := none
    attempted_init := false
    init_failed := false
    failure_reason := none }

/-- An execution environment: client state, transport script, invocation
counter, and the trace of invocations made so far. -/
structure Env where
  st : ClientState
  script : Nat → NetResp
  idx : Nat
  trace : List NetCall

/-- The client methods' effect monad: state threading over `Env` with
Python-exception results.  The environment is returned even on an error,
because Python attribute mutations survive a raise and the trace of
network invocations must remain observable. -/
def MM (α : Type) : Type := Env → Except PyErr α × Env

instance : Monad MM where
  pure a := fun env => (.ok a, env)
  bind m f := fun env =>
    match m env with
    | (.ok a, env1) => f a env1
    | (.error e, env1) => (.error e, env1)

/-- `raise`. -/
def MM.throw (e : PyErr) : MM α := fun env => (.error e, env)

/-- `try`/`except` catching every exception. -/
def MM.tryCatch (m : MM α) (h : PyErr → MM α) : MM α := fun env =>
  match m env with
  | (.ok a, env1) => (.ok a, env1)
  | (.error e, env1) => h e env1

/-- Read the client state. -/
def getSt : MM ClientState := fun env => (.ok env.st, env)

/-- Mutate the client state. -/
def setSt (f : ClientState → ClientState) : MM Unit := fun env =>
  (.ok (), { env with st := f env.st })

/-- Perform one network invocation: record it in the trace and deliver
the scripted response. -/
def netCall (c : NetCall) : MM NetResp := fun env =>
  (.ok (env.script env.idx), { env with idx := env.idx + 1, trace := env.trace ++ [c] })

/-! ### `_get_session_id` -/

/-- `MemMachineMCPClient._get_session_id`.  Returns the cached token when
present (and truthy) unless `force_refresh`; otherwise issues the
streaming GET.  A 404 status is a hard failure before the header is even
read; otherwise the header value is stored unconditionally and token
truthiness alone decides success.  Connect errors and timeouts clear the
cached token. -/
def getSessionId (force_refresh : Bool) : MM String := do
  let st0 ← getSt
  if sidTruthy st0.session_id && !force_refresh then
    pure (st0.session_id.getD "")
  else do
    let resp ← netCall .getSession
    match resp with
    | .connectError m => do
      setSt (fun s => { s with session_id := none })
      MM.throw (.valueErr ("Failed to connect to MemMachine MCP server at "
        ++ st0.base_url ++ ". Please ensure the server is running. Error: " ++ m))
    | .timeout => do
      setSt (fun s => { s with session_id := none })
      MM.throw (.valueErr ("Timeout connecting to MemMachine MCP server at "
        ++ st0.base_url ++ ". The server may be slow to respond or not running."))
    | .http status hdr _ _ =>
      if status == 404 then
        MM.throw (.valueErr ("MemMachine MCP server endpoint not found at "
          ++ mcpUrl st0 ++ ". Please ensure the MemMachine MCP server is running. "
          ++ "See MemMachine/README.md for setup instructions."))
      else do
        setSt (fun s => { s with session_id := hdr })
        if sidTruthy hdr then
          pure (hdr.getD "")
        else if status != 200 then
          MM.throw (.valueErr ("MemMachine MCP server returned status "
            ++ toString status ++ " without a session ID. "
            ++ "Please check if the server is running at " ++ st0.base_url))
        else
          MM.throw (.valueErr ("MemMachine MCP server at " ++ mcpUrl st0
            ++ " did not return a session ID. The server may not be properly "
            ++ "configured or may be using a different protocol version."))

/-! ### `_initialize_session` -/

/-- The SSE scanning loop of `_initialize_session`: a `result` field
anywhere marks success and stops the scan; an `error` field is captured
and the scan continues; undecodable `data:` lines are skipped.  The
membership tests can raise `TypeError` on non-container payloads, which
escapes (only `json.JSONDecodeError` is caught). -/
def scanInitAux (initError : Option Json) : List SSELine → Except PyErr (Bool × Option Json)
  | [] => .ok (false, initError)
  | l :: rest =>
    match l with
    | .data (some d) =>
      match pyIn "result" d with
      | .error e => .error e
      | .ok true => .ok (true, initError)
      | .ok false =>
        match pyIn "error" d with
        | .error e => .error e
        | .ok true =>
          match pyIndex d "error" with
          | .error e => .error e
          | .ok v => scanInitAux (some v) rest
        | .ok false => scanInitAux initError rest
    | _ => scanInitAux initError rest

/-- Scan of the initialize response stream (no error captured yet). -/
def scanInit (lines : List SSELine) : Except PyErr (Bool × Option Json) :=
  scanInitAux none lines

/-- `MemMachineMCPClient._initialize_session`.  Fails fast on a recorded
failure; records the reason when token acquisition fails; POSTs the
`initialize` envelope and scans its SSE stream; a captured (truthy)
error is raised even when a `result` was found afterwards; on success
fires the best-effort initialized notification whose outcome is
ignored. -/
def initializeSession : MM Unit := do
  let st0 ← getSt
  if st0.init_failed then
    MM.throw (.valueErr ("MemMachine MCP server initialization previously failed: "
      ++ (st0.failure_reason.getD "None") ++ ". Please check the server status at "
      ++ st0.base_url))
  else do
    setSt (fun s => { s with attempted_init := true })
    let session_id ← MM.tryCatch (getSessionId false)
      (fun e => do
        setSt (fun s => { s with init_failed := true, failure_reason := some (pyErrStr e) })
        MM.throw e)
    let resp ← netCall (.postInit session_id)
    match resp with
    | .connectError m => MM.throw (.connectErr m)
    | .timeout => MM.throw .timeoutErr
    | .http status _ lines _ =>
      match scanInit lines with
      | .error e => MM.throw e
      | .ok (initialized, initError) =>
        if (match initError with | some e => jTruthy e | none => false) then
          MM.throw (.valueErr ("MCP initialization error: "
            ++ Json.pyStr (initError.getD .null)))
        else if !initialized then
          if status != 200 && status != 400 then
            MM.throw (.valueErr ("Failed to initialize session: HTTP " ++ toString status))
          else
            MM.throw (.valueErr "Failed to initialize session: No result received in SSE stream")
        else do
          let _ ← netCall (.postNotif session_id)
          pure ()

/-! ### `_call_tool` -/

/-- The result-shape normalization performed inside `_call_tool` when a
`result` field is found (lines 290-333 of the source): a non-empty list
is probed at its first element for a `text` field whose content is
JSON-decoded (wrapped as a status/message dict when undecodable); a dict
yields its `structuredContent` if present, else its `content` is
unwrapped by the same rules; everything else is returned unchanged.
`.get` on a non-dict first element raises `AttributeError` and
`json.loads` on a truthy non-string `text` raises `TypeError`; both
escape, since only `json.JSONDecodeError` is caught. -/
def normalizeResult (result : Json) : Except PyErr Json :=
  match result with
  | .arr (x :: _) =>
    match pyGet x "text" (.str "") with
    | .error e => .error e
    | .ok t =>
      if jTruthy t then
        match t with
        | .str s =>
          match jsonLoads s with
          | some parsed => .ok parsed
          | none => .ok (.obj [("status", .num 200), ("message", .str s)])
        | _ => .error .typeErr
      else .ok result
  | .obj _ =>
    match jLookup result "structuredContent" with
    | some sc => .ok sc
    | none =>
      match jLookup result "content" with
      | some content =>
        match content with
        | .arr (y :: _) =>
          match pyGet y "text" (.str "") with
          | .error e => .error e
          | .ok t =>
            if jTruthy t then
              match t with
              | .str s =>
                match jsonLoads s with
                | some parsed => .ok parsed
                | none => .ok (.obj [("status", .num 200), ("message", .str s)])
              | _ => .error .typeErr
            else .ok result
        | .obj _ => .ok content
        | .str s =>
          match jsonLoads s with
          | some parsed => .ok parsed
          | none => .ok (.obj [("status", .num 200), ("message", .str s)])
        | _ => .ok result
      | none => .ok result
  | _ => .ok result

/-- Outcome of scanning a tool-call SSE stream: either a `result` line was
reached (and normalized), or the stream was exhausted with the last
captured `error` payload, if any. -/
inductive ScanOut where
  | found (v : Json) : ScanOut
  | notFound (errorFound : Option Json) : ScanOut
deriving Repr

/-- The SSE scanning loop of `_call_tool` (lines 268-337): for each
decodable `data:` line, an `error` field is captured and the scan
continues (`continue`); otherwise a `result` field is normalized and
returned immediately.  Note the loop tests `error` before `result`, the
reverse of the initialize scan. -/
def scanToolAux (errorFound : Option Json) : List SSELine → Except PyErr ScanOut
  | [] => .ok (.notFound errorFound)
  | l :: rest =>
    match l with
    | .data (some d) =>
      match pyIn "error" d with
      | .error e => .error e
      | .ok true =>
        match pyIndex d "error" with
        | .error e => .error e
        | .ok v => scanToolAux (some v) rest
      | .ok false =>
        match pyIn "result" d with
        | .error e => .error e
        | .ok true =>
          match pyIndex d "result" with
          | .error e => .error e
          | .ok result =>
            match normalizeResult result with
            | .error e => .error e
            | .ok v => .ok (.found v)
        | .ok false => scanToolAux errorFound rest
    | _ => scanToolAux errorFound rest

/-- Scan of a tool-call response stream (no error captured yet). -/
def scanTool (lines : List SSELine) : Except PyErr ScanOut :=
  scanToolAux none lines

/-- The number of lines the loop appended to `all_lines` (non-blank
lines), used in the no-result diagnostic. -/
def countLines (lines : List SSELine) : Nat :=
  (lines.filter (fun l => match l with | .blank => false | _ => true)).length

/-- The error classification at the end of `_call_tool` (lines 339-360):
`.get` calls on the captured error payload (an `AttributeError` when it
is not a dict), then a message keyed on the embedded error code. -/
def handleToolError (tool : String) (arguments : Json) (errorFound : Json) : MM Json :=
  match pyGet errorFound "code" (.num (-1)) with
  | .error e => MM.throw e
  | .ok errorCode =>
    match pyGet errorFound "message" (.str "Unknown error") with
    | .error e => MM.throw e
    | .ok errorMessage =>
      match pyGet errorFound "data" (.str "") with
      | .error e => MM.throw e
      | .ok errorData =>
        if (match errorCode with | .num n => n == -32602 | _ => false) then
          MM.throw (.valueErr ("MCP error: Invalid request parameters for tool '"
            ++ tool ++ "'. Error code: " ++ Json.pyStr errorCode ++ ", Message: "
            ++ Json.pyStr errorMessage ++ ". Data: " ++ Json.pyStr errorData
            ++ ". Arguments sent: " ++ Json.dumps arguments
            ++ ". Please check that all required parameters are provided in the correct format."))
        else if (match errorCode with | .num n => n == -32603 | _ => false) then
          MM.throw (.valueErr ("MCP error: Internal server error for tool '"
            ++ tool ++ "'. Error: " ++ Json.pyStr errorMessage ++ ". Data: "
            ++ Json.pyStr errorData))
        else
          MM.throw (.valueErr ("MCP error for tool '" ++ tool ++ "': "
            ++ Json.pyStr errorFound))

/-- The response handling of `_call_tool` (lines 241-369 of the source):
the non-200 branch with its intended-one-shot session refresh (the
`recurse` argument is the re-entry into `_call_tool`, which the source
performs with `force_refresh` left at its default `False`), and the
200-status SSE scan with the final error classification.  Factored out
of `callTool` so the trace lemmas below compose. -/
def callToolResp (recurse : MM Json) (tool : String) (arguments : Json)
    (force_refresh : Bool) (resp : NetResp) : MM Json :=
  match resp with
  | .connectError m => MM.throw (.connectErr m)
  | .timeout => MM.throw .timeoutErr
  | .http status _ lines body =>
    if status != 200 then
      if (status == 400 || status == 401) && !force_refresh then do
        setSt (fun s => { s with session_id := none })
        MM.tryCatch
          (do
            let _ ← getSessionId true
            recurse)
          (fun retry_error =>
            MM.throw (.valueErr ("Failed to call tool " ++ tool
              ++ " even after session refresh: " ++ toString status ++ ", " ++ body
              ++ ". Retry error: " ++ pyErrStr retry_error)))
      else
        MM.throw (.valueErr ("Failed to call tool " ++ tool ++ ": "
          ++ toString status ++ ", " ++ body))
    else
      match scanTool lines with
      | .error e => MM.throw e
      | .ok (.found v) => pure v
      | .ok (.notFound errorFound) =>
        if (match errorFound with | some e => jTruthy e | none => false) then
          handleToolError tool arguments (errorFound.getD .null)
        else
          MM.throw (.valueErr ("No result found in response for tool '" ++ tool
            ++ "'. Response status: " ++ toString status ++ ". Received "
            ++ toString (countLines lines)
            ++ " lines in SSE stream. The server may not have returned a valid response."))

/-- `MemMachineMCPClient._call_tool`.  Initializes the session inline when
no token is cached; POSTs the `tools/call` envelope; hands the response
to `callToolResp`, whose retry re-enters this function — passing only
`request_id`, so the recursive call again has `force_refresh = False`
exactly as in the source (the retry bound the comment promises is not
enforced).  `fuel` bounds the recursion depth; running out yields
`nonTermination` (the model of an unbounded retry loop). -/
def callTool (fuel : Nat) (tool : String) (arguments : Json)
    (request_id : Nat) (force_refresh : Bool) : MM Json :=
  match fuel with
  | 0 => MM.throw .nonTermination
  | fuel + 1 => do
    let st0 ← getSt
    if !(sidTruthy st0.session_id) then initializeSession
    let st1 ← getSt
    if !(sidTruthy st1.session_id) then
      MM.throw (.valueErr "No session ID available. Session initialization may have failed.")
    else do
      let session_id := st1.session_id.getD ""
      let resp ← netCall (.postTool session_id tool)
      callToolResp (callTool fuel tool arguments request_id false) tool arguments
        force_refresh resp

/-! ### Public operations -/

/-- The result post-processing shared verbatim by `add_memory` (lines
418-424) and `search_memory` (lines 477-483): a non-empty list's first
element is probed for `text`, which is JSON-decoded **without** a
guarding `try` (`json.JSONDecodeError` escapes); a dict's `content`
field is returned when present; everything else is returned as-is. -/
def parsePublicResult (result : Json) : Except PyErr Json :=
  match result with
  | .arr (x :: _) =>
    match pyGet x "text" (.str "") with
    | .error e => .error e
    | .ok t =>
      if jTruthy t then
        match t with
        | .str s =>
          match jsonLoads s with
          | some parsed => .ok parsed
          | none => .error .jsonDecodeErr
        | _ => .error .typeErr
      else .ok result
  | .obj _ =>
    match jLookup result "content" with
    | some c => .ok c
    | none => .ok result
  | _ => .ok result

/-- The session guard at the top of `add_memory`/`search_memory`: when no
token is cached or a failure is recorded, the failure state is cleared
and initialization re-attempted; a failure of that attempt is recorded
and re-raised as the caller-facing unavailability error. -/
def ensureSession : MM Unit := do
  let st0 ← getSt
  if !(sidTruthy st0.session_id) || st0.init_failed then
    MM.tryCatch
      (do
        let stA ← getSt
        if stA.init_failed then
          setSt (fun s =>
            { s with init_failed := false, failure_reason := none, session_id := none })
        initializeSession)
      (fun e => do
        setSt (fun s => { s with init_failed := true, failure_reason := some (pyErrStr e) })
        MM.throw (.valueErr ("MemMachine unavailable: " ++ pyErrStr e)))
  else pure ()

/-- `MemMachineMCPClient.add_memory`: session guard, then principal
resolution (`user_id or self.user_id`), then the emptiness validations,
then the tool call and result post-processing. -/
def addMemory (fuel : Nat) (content : String) (user_id : Option String) : MM Json := do
  ensureSession
  let stB ← getSt
  let uid := match user_id with
    | some u => if sTruthy u then u else stB.user_id
    | none => stB.user_id
  if content == "" || pyStrip content == "" then
    MM.throw (.valueErr "Memory content cannot be empty")
  else if uid == "" || pyStrip uid == "" then
    MM.throw (.valueErr "User ID cannot be empty")
  else do
    let result ← callTool fuel "add_memory"
      (.obj [("param", .obj [("user_id", .str uid), ("content", .str content)])]) 1 false
    match parsePublicResult result with
    | .error e => MM.throw e
    | .ok v => pure v

/-- `MemMachineMCPClient.search_memory`: session guard, principal
resolution, emptiness validations, silent clamping of `limit` into
`[1, 50]`, then the tool call and result post-processing. -/
def searchMemory (fuel : Nat) (query : String) (limit : Int) (user_id : Option String) :
    MM Json := do
  ensureSession
  let stB ← getSt
  let uid := match user_id with
    | some u => if sTruthy u then u else stB.user_id
    | none => stB.user_id
  if query == "" || pyStrip query == "" then
    MM.throw (.valueErr "Search query cannot be empty")
  else if uid == "" || pyStrip uid == "" then
    MM.throw (.valueErr "User ID cannot be empty")
  else do
    let lim := if limit < 1 || limit > 50 then max 1 (min 50 limit) else limit
    let result ← callTool fuel "search_memory"
      (.obj [("param", .obj [("user_id", .str uid), ("query", .str query),
        ("limit", .num lim)])]) 2 false
    match parsePublicResult result with
    | .error e => MM.throw e
    | .ok v => pure v

/-! ### Running the monad: unfolding lemmas -/

/-- Unfold `>>=` on an environment. -/
@[simp] theorem mm_run_bind (m : MM α) (f : α → MM β) (env : Env) :
    (m >>= f) env =
      (match m env with
       | (.ok a, e1) => f a e1
       | (.error e, e1) => (.error e, e1)) := rfl

/-- Unfold `pure` on an environment. -/
@[simp] theorem mm_run_pure (a : α) (env : Env) : (pure a : MM α) env = (.ok a, env) := rfl

/-- Unfold `MM.throw` on an environment. -/
@[simp] theorem mm_run_throw (e : PyErr) (env : Env) :
    (MM.throw e : MM α) env = (.error e, env) := rfl

/-- Unfold `MM.tryCatch` on an environment. -/
@[simp] theorem mm_run_tryCatch (m : MM α) (h : PyErr → MM α) (env : Env) :
    MM.tryCatch m h env =
      (match m env with
       | (.ok a, e1) => (.ok a, e1)
       | (.error e, e1) => h e e1) := rfl

/-- Unfold `getSt` on an environment. -/
@[simp] theorem mm_run_getSt (env : Env) : getSt env = (.ok env.st, env) := rfl

/-- Unfold `setSt` on an environment. -/
@[simp] theorem mm_run_setSt (f : ClientState → ClientState) (env : Env) :
    setSt f env = (.ok (), { env with st := f env.st }) := rfl

/-- Unfold `netCall` on an environment. -/
@[simp] theorem mm_run_netCall (c : NetCall) (env : Env) :
    netCall c env =
      (.ok (env.script env.idx),
       { env with idx := env.idx + 1, trace := env.trace ++ [c] }) := rfl

/-! ### Trace observations -/

/-- Number of `tools/call` POSTs in a trace (underlying tool-call attempts
seen by a transport mock). -/
def toolCallCount (tr : List NetCall) : Nat :=
  (tr.filter (fun c => match c with | .postTool _ _ => true | _ => false)).length

/-- `true` when the trace contains no `tools/call` POST at all. -/
def noTool (tr : List NetCall) : Bool :=
  tr.all (fun c => match c with | .postTool _ _ => false | _ => true)

/-- Walks a trace keeping the set of tokens for which an initialize POST
has been sent, and checks that every `tools/call` POST uses a token whose
handshake appears earlier in the trace. -/
def handshakeBeforeTool (seen : List String) : List NetCall → Bool
  | [] => true
  | .postInit t :: rest => handshakeBeforeTool (t :: seen) rest
  | .postTool t _ :: rest => seen.contains t && handshakeBeforeTool seen rest
  | _ :: rest => handshakeBeforeTool seen rest

/-- `true` when the result is a `ValueError` — the exception class carrying
every error classified by the client itself (the spec's
`InvalidArgument` / `ServiceUnavailable` / `RemoteRejected`). -/
def isValueErr : Except PyErr α → Bool
  | .error (.valueErr _) => true
  | _ => false

/-! ### Fixtures: client states and transport scripts used by the
concrete runs below -/

/-- A client whose session is already initialized (token cached, no
recorded failure). -/
def stInit : ClientState :=
  { base_url := "http://localhost:8090", user_id := "default-user"
    session_id := some "T1", attempted_init := true
    init_failed := false, failure_reason := none }

/-- A freshly constructed client. -/
def stFresh : ClientState := mkClient "http://localhost:8090" "default-user"

/-- An SSE stream whose single data line announces a successful
initialize result. -/
def okInitLines : List SSELine :=
  [SSELine.event, SSELine.data (some (Json.obj [("result", Json.obj [])]))]

/-- An SSE stream carrying a successful tool result object. -/
def okToolLines : List SSELine :=
  [SSELine.data (some (Json.obj [("result", Json.obj [("status", Json.num 200)])]))]

/-- A transport whose GET yields token `T1` and whose POSTs succeed (a
complete, healthy handshake). -/
def scriptHealthy : Nat → NetResp := fun n =>
  if n == 0 then NetResp.http 200 (some "T1") [] ""
  else if n == 1 then NetResp.http 200 none okInitLines ""
  else NetResp.http 202 none [] ""

/-! The whole model is placed in the default simp set, so that concrete
runs of the client can be evaluated by `simp` (term-level definitional
unfolding of a long monadic run duplicates the environment at every bind
and is infeasible; simp evaluates with sharing). -/
attribute [simp] pyErrStr listInfix pyIn pyIndex pyGet commaJoin
  Json.pyRepr pyReprList pyReprKVs Json.pyStr Json.dumps dumpsList dumpsKVs
  isPySpace rstripSlash skipWs escChar parseStringAux
  parseDigits stripLit sepElems sepKVs parseVal mcpUrl mkClient
  scanInitAux scanInit scanToolAux
  scanTool countLines
  toolCallCount noTool handshakeBeforeTool isValueErr
  stInit stFresh okInitLines okToolLines scriptHealthy

/-! ### C1: the retry budget -/

/-- A transport that performs a healthy handshake and then answers every
`tools/call` POST with status 400, supplying a fresh token on each
interleaved GET: the stale-session status never goes away. -/
@[simp] def scriptStale : Nat → NetResp := fun n =>
  if n == 0 then NetResp.http 200 (some "T1") [] ""
  else if n == 1 then NetResp.http 200 none okInitLines ""
  else if n == 2 then NetResp.http 202 none [] ""
  else if (n - 3) % 2 == 0 then NetResp.http 400 none [] "bad"
  else NetResp.http 200 (some "T9") [] ""

/-- C1: **refuted by the code** — the claim (and the source comment
"Retry the call with new session (only once)") promise at most two
underlying tool-call attempts, but the recursive retry at line 253 of
`memmachine_client.py` does not pass `force_refresh=True`, so against a
transport that keeps answering 400 the client issues as many `tools/call`
POSTs as the model's fuel allows (5 with fuel 5, 7 with fuel 7): the
retry is unbounded, a third (and fourth, ...) attempt does occur. -/
theorem c1_retry_not_bounded :
    toolCallCount ((addMemory 5 "hi" none
        { st := stFresh, script := scriptStale, idx := 0, trace := [] }).2.trace) = 5
    ∧ toolCallCount ((addMemory 7 "hi" none
        { st := stFresh, script := scriptStale, idx := 0, trace := [] }).2.trace) = 7
    ∧ isValueErr (addMemory 5 "hi" none
        { st := stFresh, script := scriptStale, idx := 0, trace := [] }).1 = true :=
  by refine ⟨?_, ?_, ?_⟩ <;> simp [addMemory, searchMemory, ensureSession, initializeSession, getSessionId, callTool, callToolResp, handleToolError, normalizeResult, parsePublicResult, sidTruthy, sTruthy, pyStrip, jLookup, jTruthy, jsonLoads]

/-! ### C6: result-shape normalization as seen by the caller -/

/-- The tool response of the claim's first scenario:
`result = [{"type":"text","text":"{\"status\":200,\"message\":\"ok\"}"}]`. -/
@[simp] def respTextList : NetResp :=
  NetResp.http 200 none
    [SSELine.data (some (Json.obj [("result",
      Json.arr [Json.obj [("type", Json.str "text"),
        ("text", Json.str "\x7b\"status\":200,\"message\":\"ok\"\x7d")]])]))] ""

/-- The tool response of the claim's second scenario:
`result = {"structuredContent":{"memories":["a","b"]}}`. -/
@[simp] def respStructured : NetResp :=
  NetResp.http 200 none
    [SSELine.data (some (Json.obj [("result",
      Json.obj [("structuredContent",
        Json.obj [("memories", Json.arr [Json.str "a", Json.str "b"])])])]))] ""

/-- The second scenario with a sibling `content` field next to
`structuredContent`. -/
@[simp] def respStructuredSibling : NetResp :=
  NetResp.http 200 none
    [SSELine.data (some (Json.obj [("result",
      Json.obj [("structuredContent",
        Json.obj [("memories", Json.arr [Json.str "a", Json.str "b"])]),
        ("content", Json.obj [("x", Json.num 1)])])]))] ""

/-- C6: **confirmed** — through the public operations, the text-list
result decodes to `{"status":200,"message":"ok"}`, the
`structuredContent` result returns `{"memories":["a","b"]}` exactly, and
`structuredContent` takes precedence over a sibling `content` field. -/
theorem c6_result_normalization :
    (addMemory 3 "hello" none
        { st := stInit, script := fun _ => respTextList, idx := 0, trace := [] }).1
      = .ok (Json.obj [("status", Json.num 200), ("message", Json.str "ok")])
    ∧ (searchMemory 3 "q" 5 none
        { st := stInit, script := fun _ => respStructured, idx := 0, trace := [] }).1
      = .ok (Json.obj [("memories", Json.arr [Json.str "a", Json.str "b"])])
    ∧ (searchMemory 3 "q" 5 none
        { st := stInit, script := fun _ => respStructuredSibling, idx := 0, trace := [] }).1
      = .ok (Json.obj [("memories", Json.arr [Json.str "a", Json.str "b"])]) :=
  by refine ⟨?_, ?_, ?_⟩ <;> simp [addMemory, searchMemory, ensureSession, initializeSession, getSessionId, callTool, callToolResp, handleToolError, normalizeResult, parsePublicResult, sidTruthy, sTruthy, pyStrip, jLookup, jTruthy, jsonLoads]

/-! ### C2: validation versus network calls -/

/-- C2 counterexample: on a freshly constructed client (no session yet),
`add_memory("")` raises the local validation error — but only **after**
the session guard has already performed the whole handshake: the
transport records three network invocations, not zero, because the
validation sits below the session-initialization block in the source. -/
theorem c2_counterexample :
    (addMemory 3 "" none
        { st := stFresh, script := scriptHealthy, idx := 0, trace := [] }).1
      = .error (.valueErr "Memory content cannot be empty")
    ∧ (addMemory 3 "" none
        { st := stFresh, script := scriptHealthy, idx := 0, trace := [] }).2.trace
      = [NetCall.getSession, NetCall.postInit "T1", NetCall.postNotif "T1"]
    ∧ ((addMemory 3 "" none
        { st := stFresh, script := scriptHealthy, idx := 0, trace := [] }).2.trace).length
      = 3 :=
  by refine ⟨?_, ?_, ?_⟩ <;> simp [addMemory, searchMemory, ensureSession, initializeSession, getSessionId, callTool, callToolResp, handleToolError, normalizeResult, parsePublicResult, sidTruthy, sTruthy, pyStrip, jLookup, jTruthy, jsonLoads]

/-! ### C3: cached failure state -/

/-- A client with a recorded initialization failure and cached reason
`"R"`. -/
@[simp] def stFailedR : ClientState :=
  { stFresh with init_failed := true, failure_reason := some "R" }

/-- C3 counterexample: with a failure already recorded (cached reason
`"R"`), the next `add_memory` does **not** re-raise the cached reason
with zero network round trips: it clears the failure state at the top,
re-attempts initialization (one GET reaches the transport), and raises a
message built from the **new** failure, with the cached reason replaced. -/
theorem c3_counterexample :
    (addMemory 3 "hi" none
        { st := stFailedR, script := fun _ => NetResp.connectError "boom",
          idx := 0, trace := [] }).1
      = .error (.valueErr ("MemMachine unavailable: Failed to connect to MemMachine "
          ++ "MCP server at http://localhost:8090. Please ensure the server is "
          ++ "running. Error: boom"))
    ∧ (addMemory 3 "hi" none
        { st := stFailedR, script := fun _ => NetResp.connectError "boom",
          idx := 0, trace := [] }).2.trace
      = [NetCall.getSession]
    ∧ (addMemory 3 "hi" none
        { st := stFailedR, script := fun _ => NetResp.connectError "boom",
          idx := 0, trace := [] }).2.st.failure_reason
      = some ("Failed to connect to MemMachine MCP server at http://localhost:8090. "
          ++ "Please ensure the server is running. Error: boom") :=
  by refine ⟨?_, ?_, ?_⟩ <;> simp [addMemory, searchMemory, ensureSession, initializeSession, getSessionId, callTool, callToolResp, handleToolError, normalizeResult, parsePublicResult, sidTruthy, sTruthy, pyStrip, jLookup, jTruthy, jsonLoads]

/-! ### C4: handshake before every tools/call -/

/-- A transport that completes a healthy handshake under token `T1`,
answers the first `tools/call` with 400 (stale session), supplies the
fresh token `T2` on the forced GET, and accepts the retried tool call. -/
@[simp] def scriptStaleOnce : Nat → NetResp := fun n =>
  if n == 0 then NetResp.http 200 (some "T1") [] ""
  else if n == 1 then NetResp.http 200 none okInitLines ""
  else if n == 2 then NetResp.http 202 none [] ""
  else if n == 3 then NetResp.http 400 none [] "stale"
  else if n == 4 then NetResp.http 200 (some "T2") [] ""
  else NetResp.http 200 none okToolLines ""

/-- C4 counterexample: after the stale-session path discards the token
and acquires the fresh token `T2`, the retried `tools/call` POST is sent
under `T2` **without** any initialize handshake for `T2` — the stale
path calls `_get_session_id(force_refresh=True)` only, never
`_initialize_session`, so the full trace contains `postTool "T2"` with
no `postInit "T2"` anywhere before it. -/
theorem c4_counterexample :
    (addMemory 5 "hi" none
        { st := stFresh, script := scriptStaleOnce, idx := 0, trace := [] }).2.trace
      = [NetCall.getSession, NetCall.postInit "T1", NetCall.postNotif "T1",
         NetCall.postTool "T1" "add_memory", NetCall.getSession,
         NetCall.postTool "T2" "add_memory"]
    ∧ handshakeBeforeTool []
        ((addMemory 5 "hi" none
          { st := stFresh, script := scriptStaleOnce, idx := 0, trace := [] }).2.trace)
      = false
    ∧ (addMemory 5 "hi" none
        { st := stFresh, script := scriptStaleOnce, idx := 0, trace := [] }).1
      = .ok (Json.obj [("status", Json.num 200)]) :=
  by refine ⟨?_, ?_, ?_⟩ <;> simp [addMemory, searchMemory, ensureSession, initializeSession, getSessionId, callTool, callToolResp, handleToolError, normalizeResult, parsePublicResult, sidTruthy, sTruthy, pyStrip, jLookup, jTruthy, jsonLoads]

/-! ### C5: error line followed by result line -/

/-- An initialize SSE stream with an `error` data line followed by a
`result` data line. -/
@[simp] def errThenResultInit : List SSELine :=
  [SSELine.data (some (Json.obj [("error", Json.str "transient")])),
   SSELine.data (some (Json.obj [("result", Json.obj [])]))]

/-- C5 counterexample: in the **initialize handshake**, a stream whose
`error` line is followed by a `result` line does *not* yield success:
`_initialize_session` checks `if init_error:` before `if not
initialized:`, so the captured error wins and the handshake raises even
though a result was found. -/
theorem c5_counterexample :
    (initializeSession
        { st := stFresh,
          script := fun n => if n == 0 then NetResp.http 200 (some "T1") [] ""
            else NetResp.http 200 none errThenResultInit "",
          idx := 0, trace := [] }).1
      = .error (.valueErr "MCP initialization error: transient") :=
  by simp [initializeSession, getSessionId, sidTruthy, sTruthy, jLookup, jTruthy, normalizeResult]

/-! ### C8: classified failures only -/

/-- A tool response whose `result` is `["hello"]`: a list whose first
element is not an object. -/
@[simp] def respBadList : NetResp :=
  NetResp.http 200 none
    [SSELine.data (some (Json.obj [("result", Json.arr [Json.str "hello"])]))] ""

/-- C8 counterexample: with non-empty content and principal, a server
result of `["hello"]` makes `add_memory` raise an **unclassified**
`AttributeError` (`result[0].get("text", "")` on a `str`), not
`ServiceUnavailable`/`RemoteRejected` (which are `ValueError`s in the
source). -/
theorem c8_counterexample :
    (addMemory 3 "hi" none
        { st := stInit, script := fun _ => respBadList, idx := 0, trace := [] }).1
      = .error .attrErr
    ∧ isValueErr (addMemory 3 "hi" none
        { st := stInit, script := fun _ => respBadList, idx := 0, trace := [] }).1
      = false :=
  by refine ⟨?_, ?_⟩ <;> simp [addMemory, searchMemory, ensureSession, initializeSession, getSessionId, callTool, callToolResp, handleToolError, normalizeResult, parsePublicResult, sidTruthy, sTruthy, pyStrip, jLookup, jTruthy, jsonLoads]

/-! ### C9: connect failure / timeout during token acquisition -/

/-- C9: **confirmed** — whatever token was cached before, a connect-level
failure or a timeout of the token-acquisition GET clears the cached
token (the field is `none` afterwards) and raises the hard failure with
the corresponding diagnostic. -/
theorem c9_failure_clears_token (st : ClientState) (m : String) :
    ((getSessionId true
        { st := st, script := fun _ => NetResp.connectError m, idx := 0, trace := [] }).1
      = .error (.valueErr ("Failed to connect to MemMachine MCP server at "
          ++ st.base_url ++ ". Please ensure the server is running. Error: " ++ m))
    ∧ (getSessionId true
        { st := st, script := fun _ => NetResp.connectError m, idx := 0, trace := [] }).2.st.session_id
      = none)
    ∧ ((getSessionId true
        { st := st, script := fun _ => NetResp.timeout, idx := 0, trace := [] }).1
      = .error (.valueErr ("Timeout connecting to MemMachine MCP server at "
          ++ st.base_url ++ ". The server may be slow to respond or not running."))
    ∧ (getSessionId true
        { st := st, script := fun _ => NetResp.timeout, idx := 0, trace := [] }).2.st.session_id
      = none) := by
  refine ⟨⟨?_, ?_⟩, ⟨?_, ?_⟩⟩ <;> simp [getSessionId]

/-! ### C7: token acquisition success criterion -/

/-- C7: **confirmed** — for the token-acquisition GET (no cached token,
so the request is issued): a 404 status is always a hard `ValueError`
regardless of the header, with the client state untouched; for any other
status — including 400 — a non-empty token header means success, with
the token stored and returned; for any other status, a missing or empty
token header means a `ValueError`. -/
theorem c7_token_acquisition (st : ClientState) (h : st.session_id = none)
    (status : Nat) (hdr : Option String) (lines : List SSELine) (body : String) :
    (status = 404 →
      isValueErr (getSessionId false
        { st := st, script := fun _ => NetResp.http status hdr lines body,
          idx := 0, trace := [] }).1 = true
      ∧ (getSessionId false
        { st := st, script := fun _ => NetResp.http status hdr lines body,
          idx := 0, trace := [] }).2.st = st)
    ∧ (status ≠ 404 → ∀ t, hdr = some t → t ≠ "" →
      (getSessionId false
        { st := st, script := fun _ => NetResp.http status hdr lines body,
          idx := 0, trace := [] }).1 = .ok t
      ∧ (getSessionId false
        { st := st, script := fun _ => NetResp.http status hdr lines body,
          idx := 0, trace := [] }).2.st.session_id = some t)
    ∧ (status ≠ 404 → sidTruthy hdr = false →
      isValueErr (getSessionId false
        { st := st, script := fun _ => NetResp.http status hdr lines body,
          idx := 0, trace := [] }).1 = true) := by
  refine ⟨?_, ?_, ?_⟩
  · intro h404
    subst h404
    exact ⟨by simp [getSessionId, h, sidTruthy], by simp [getSessionId, h, sidTruthy]⟩
  · intro h404 t ht htne
    subst ht
    exact ⟨by simp [getSessionId, h, h404, htne, sidTruthy, sTruthy],
           by simp [getSessionId, h, h404, htne, sidTruthy, sTruthy]⟩
  · intro h404 hh
    cases hdr with
    | none =>
      rcases eq_or_ne status 200 with h200 | h200
      · subst h200
        simp [getSessionId, h, sidTruthy]
      · simp [getSessionId, h, h404, h200, sidTruthy]
    | some t =>
      have ht : t = "" := by
        by_contra hne
        simp [sidTruthy, sTruthy, hne] at hh
      subst ht
      rcases eq_or_ne status 200 with h200 | h200
      · subst h200
        simp [getSessionId, h, sidTruthy, sTruthy]
      · simp [getSessionId, h, h404, h200, sidTruthy, sTruthy]

/-- C7 witness: at status 400 with token header `"abc"`, acquisition
succeeds and stores the token; at status 404 with the same header it is
a `ValueError`. -/
theorem c7_token_acquisition_witness :
    ((getSessionId false
        { st := stFresh, script := fun _ => NetResp.http 400 (some "abc") [] "",
          idx := 0, trace := [] }).1 = .ok "abc"
    ∧ (getSessionId false
        { st := stFresh, script := fun _ => NetResp.http 400 (some "abc") [] "",
          idx := 0, trace := [] }).2.st.session_id = some "abc")
    ∧ isValueErr (getSessionId false
        { st := stFresh, script := fun _ => NetResp.http 404 (some "abc") [] "",
          idx := 0, trace := [] }).1 = true :=
  ⟨(c7_token_acquisition stFresh rfl 400 (some "abc") [] "").2.1 (by decide) "abc" rfl
      (by decide),
   ((c7_token_acquisition stFresh rfl 404 (some "abc") [] "").1 rfl).1⟩

/-! ### C10: whitespace-only strings are treated as empty -/

/-- A string all of whose characters are stripped whitespace strips to
the empty string. -/
theorem pyStrip_eq_empty_of_all_space (s : String) (h : s.toList.all isPySpace = true) :
    pyStrip s = "" := by
  have h2 : List.dropWhile isPySpace s.data = [] := by
    rw [List.dropWhile_eq_nil_iff]
    intro x hx
    exact List.all_eq_true.mp h x hx
  have h3 : pyStrip s = String.mk [] := by simp [pyStrip, String.toList, h2]
  exact h3

/-- C10: **confirmed** — on a client with an initialized session, a
whitespace-only (and non-empty) `content`, `query`, or passed `user_id`
makes `add_memory`/`search_memory` raise the corresponding
"cannot be empty" `ValueError`, with zero network invocations: the
validation strips the string and finds it empty. -/
theorem c10_whitespace_only (sc : Nat → NetResp) (st : ClientState) (tk : String)
    (h1 : st.session_id = some tk) (htk : tk ≠ "") (h2 : st.init_failed = false)
    (fuel : Nat) (lim : Int) (u : Option String)
    (w : String) (hw : w.toList.all isPySpace = true) (hne : w ≠ "") :
    ((addMemory fuel w u { st := st, script := sc, idx := 0, trace := [] }).1
        = .error (.valueErr "Memory content cannot be empty")
      ∧ (addMemory fuel w u { st := st, script := sc, idx := 0, trace := [] }).2.trace = [])
    ∧ ((searchMemory fuel w lim u { st := st, script := sc, idx := 0, trace := [] }).1
        = .error (.valueErr "Search query cannot be empty")
      ∧ (searchMemory fuel w lim u { st := st, script := sc, idx := 0, trace := [] }).2.trace = [])
    ∧ ((addMemory fuel "hi" (some w) { st := st, script := sc, idx := 0, trace := [] }).1
        = .error (.valueErr "User ID cannot be empty")
      ∧ (addMemory fuel "hi" (some w) { st := st, script := sc, idx := 0, trace := [] }).2.trace = [])
    ∧ ((searchMemory fuel "hi" lim (some w) { st := st, script := sc, idx := 0, trace := [] }).1
        = .error (.valueErr "User ID cannot be empty")
      ∧ (searchMemory fuel "hi" lim (some w)
          { st := st, script := sc, idx := 0, trace := [] }).2.trace = []) := by
  have hs := pyStrip_eq_empty_of_all_space w hw
  have h5 : pyStrip "hi" = "hi" := by simp [pyStrip]
  refine ⟨⟨?_, ?_⟩, ⟨?_, ?_⟩, ⟨?_, ?_⟩, ⟨?_, ?_⟩⟩ <;>
    simp [addMemory, searchMemory, ensureSession, h1, htk, h2, hs, h5, hne, sidTruthy, sTruthy]

/-- C10 witness: concrete whitespace-only strings through the theorem. -/
theorem c10_whitespace_only_witness :
    (addMemory 3 "   " none
        { st := stInit, script := fun _ => NetResp.timeout, idx := 0, trace := [] }).1
      = .error (.valueErr "Memory content cannot be empty")
    ∧ (searchMemory 3 " \t " 5 none
        { st := stInit, script := fun _ => NetResp.timeout, idx := 0, trace := [] }).1
      = .error (.valueErr "Search query cannot be empty")
    ∧ (addMemory 3 "hi" (some " \t ")
        { st := stInit, script := fun _ => NetResp.timeout, idx := 0, trace := [] }).1
      = .error (.valueErr "User ID cannot be empty") :=
  ⟨(c10_whitespace_only (fun _ => NetResp.timeout) stInit "T1" rfl (by decide) rfl
      3 5 none "   " (by decide) (by decide)).1.1,
   (c10_whitespace_only (fun _ => NetResp.timeout) stInit "T1" rfl (by decide) rfl
      3 5 none " \t " (by decide) (by decide)).2.1.1,
   (c10_whitespace_only (fun _ => NetResp.timeout) stInit "T1" rfl (by decide) rfl
      3 5 none " \t " (by decide) (by decide)).2.2.1.1⟩

/-! ### C2/C3/C5: amended statements -/

/-- A client with an initialized session but an empty default principal. -/
@[simp] def stNoUser : ClientState :=
  { stInit with user_id := "" }

/-- C2 amended: on a client whose session is **already initialized**, the
emptiness validations fire before any tool call, and the transport
records zero network invocations — for empty `content`, empty `query`,
and an empty resolved principal alike.  (On an uninitialized client the
handshake runs first; see the counterexample.) -/
theorem c2_amended (sc : Nat → NetResp) (st : ClientState) (tk : String)
    (h1 : st.session_id = some tk) (htk : tk ≠ "") (h2 : st.init_failed = false)
    (fuel : Nat) (lim : Int) (u : Option String) :
    ((addMemory fuel "" u { st := st, script := sc, idx := 0, trace := [] }).1
        = .error (.valueErr "Memory content cannot be empty")
      ∧ (addMemory fuel "" u { st := st, script := sc, idx := 0, trace := [] }).2.trace = [])
    ∧ ((searchMemory fuel "" lim u { st := st, script := sc, idx := 0, trace := [] }).1
        = .error (.valueErr "Search query cannot be empty")
      ∧ (searchMemory fuel "" lim u { st := st, script := sc, idx := 0, trace := [] }).2.trace = [])
    ∧ (st.user_id = "" →
        (addMemory fuel "hi" none { st := st, script := sc, idx := 0, trace := [] }).1
          = .error (.valueErr "User ID cannot be empty")
      ∧ (addMemory fuel "hi" none { st := st, script := sc, idx := 0, trace := [] }).2.trace = []) := by
  have h5 : pyStrip "hi" = "hi" := by simp [pyStrip]
  refine ⟨⟨?_, ?_⟩, ⟨?_, ?_⟩, fun hu => ⟨?_, ?_⟩⟩ <;>
    simp [addMemory, searchMemory, ensureSession, h1, htk, h2, h5, sidTruthy, sTruthy, *]

/-- C2 witness: concrete empty inputs on an initialized client whose
transport, if touched at all, would only time out. -/
theorem c2_amended_witness :
    ((addMemory 3 "" none
        { st := stNoUser, script := fun _ => NetResp.timeout, idx := 0, trace := [] }).1
      = .error (.valueErr "Memory content cannot be empty")
    ∧ (addMemory 3 "" none
        { st := stNoUser, script := fun _ => NetResp.timeout, idx := 0, trace := [] }).2.trace = [])
    ∧ (addMemory 3 "hi" none
        { st := stNoUser, script := fun _ => NetResp.timeout, idx := 0, trace := [] }).1
      = .error (.valueErr "User ID cannot be empty") :=
  ⟨⟨(c2_amended (fun _ => NetResp.timeout) stNoUser "T1" rfl (by decide) rfl 3 5 none).1.1,
    (c2_amended (fun _ => NetResp.timeout) stNoUser "T1" rfl (by decide) rfl 3 5 none).1.2⟩,
   ((c2_amended (fun _ => NetResp.timeout) stNoUser "T1" rfl (by decide) rfl 3 5 none).2.2 rfl).1⟩

/-- C3 amended: once a failure is recorded, `_initialize_session` fails
fast — it re-raises a `ValueError` embedding the cached reason and makes
zero network round trips — and `_call_tool` entered without a session
token propagates exactly that error.  (The public operations instead
clear the failure state and re-attempt, per the counterexample.) -/
theorem c3_amended (sc : Nat → NetResp) (st : ClientState) (r : String)
    (h1 : st.init_failed = true) (h2 : st.failure_reason = some r)
    (h3 : st.session_id = none) (fuel : Nat) (tool : String) (args : Json)
    (rid : Nat) (fr : Bool) :
    ((initializeSession { st := st, script := sc, idx := 0, trace := [] }).1
        = .error (.valueErr ("MemMachine MCP server initialization previously failed: "
            ++ r ++ ". Please check the server status at " ++ st.base_url))
      ∧ (initializeSession { st := st, script := sc, idx := 0, trace := [] }).2.trace = [])
    ∧ ((callTool (fuel + 1) tool args rid fr { st := st, script := sc, idx := 0, trace := [] }).1
        = .error (.valueErr ("MemMachine MCP server initialization previously failed: "
            ++ r ++ ". Please check the server status at " ++ st.base_url))
      ∧ (callTool (fuel + 1) tool args rid fr
          { st := st, script := sc, idx := 0, trace := [] }).2.trace = []) := by
  refine ⟨⟨?_, ?_⟩, ⟨?_, ?_⟩⟩ <;>
    simp [initializeSession, callTool, callToolResp, h1, h2, h3, sidTruthy]

/-- C3 witness: the fail-fast path at the concrete failed client with
cached reason `"R"`. -/
theorem c3_amended_witness :
    (initializeSession
        { st := stFailedR, script := fun _ => NetResp.connectError "boom",
          idx := 0, trace := [] }).1
      = .error (.valueErr ("MemMachine MCP server initialization previously failed: "
          ++ "R" ++ ". Please check the server status at " ++ stFailedR.base_url))
    ∧ (initializeSession
        { st := stFailedR, script := fun _ => NetResp.connectError "boom",
          idx := 0, trace := [] }).2.trace = [] :=
  ⟨(c3_amended (fun _ => NetResp.connectError "boom") stFailedR "R" rfl rfl rfl
      3 "add_memory" (Json.obj []) 1 false).1.1,
   (c3_amended (fun _ => NetResp.connectError "boom") stFailedR "R" rfl rfl rfl
      3 "add_memory" (Json.obj []) 1 false).1.2⟩

/-- C5 amended: for **tool calls**, a stream with an `error` data line
followed by a `result` data line yields the normalized result (the late
result supersedes the captured error); in the **initialize handshake**
the same stream shape raises the captured (truthy) error instead — the
scan does continue past the error, but the error is checked first. -/
theorem c5_amended (e : Json) (kvs : List (String × Json))
    (h1 : jLookup (Json.obj kvs) "structuredContent" = none)
    (h2 : jLookup (Json.obj kvs) "content" = none)
    (he : jTruthy e = true) :
    (callTool 1 "search_memory" (Json.obj []) 2 false
        { st := stInit,
          script := fun _ => NetResp.http 200 none
            [SSELine.data (some (Json.obj [("error", e)])),
             SSELine.data (some (Json.obj [("result", Json.obj kvs)]))] "",
          idx := 0, trace := [] }).1
      = .ok (Json.obj kvs)
    ∧ (initializeSession
        { st := stFresh,
          script := fun n => if n == 0 then NetResp.http 200 (some "T1") [] ""
            else NetResp.http 200 none
              [SSELine.data (some (Json.obj [("error", e)])),
               SSELine.data (some (Json.obj [("result", Json.obj [])]))] "",
          idx := 0, trace := [] }).1
      = .error (.valueErr ("MCP initialization error: " ++ Json.pyStr e)) := by
  have hA : jLookup (Json.obj [("error", e)]) "error" = some e := by simp [jLookup]
  have hB : jLookup (Json.obj [("result", Json.obj kvs)]) "result" = some (Json.obj kvs) := by
    simp [jLookup]
  constructor
  · simp [callTool, callToolResp, normalizeResult, hA, hB, h1, h2, sidTruthy, sTruthy]
  · simp [initializeSession, getSessionId, hA, he, sidTruthy, sTruthy]

/-- C5 witness: the supersede behaviour at a concrete error and result. -/
theorem c5_amended_witness :
    (callTool 1 "search_memory" (Json.obj []) 2 false
        { st := stInit,
          script := fun _ => NetResp.http 200 none
            [SSELine.data (some (Json.obj [("error", Json.str "x")])),
             SSELine.data (some (Json.obj [("result",
               Json.obj [("memories", Json.arr [])])]))] "",
          idx := 0, trace := [] }).1
      = .ok (Json.obj [("memories", Json.arr [])]) :=
  (c5_amended (Json.str "x") [("memories", Json.arr [])]
    (by simp [jLookup]) (by simp [jLookup]) (by decide)).1

/-! ### Trace monotonicity

Every client method only appends to the trace of network invocations.
`TraceMono` states this for one program; the lemmas below compose it
over the monad's combinators and establish it for each method. -/

/-- The final trace extends the initial trace. -/
def TraceMono (m : MM α) : Prop :=
  ∀ env, ∃ Δ, ((m env).2).trace = env.trace ++ Δ

/-- `pure` adds nothing to the trace. -/
theorem traceMono_pure (a : α) : TraceMono (pure a : MM α) :=
  fun _ => ⟨[], by simp⟩

/-- `MM.throw` adds nothing to the trace. -/
theorem traceMono_throw (e : PyErr) : TraceMono (MM.throw e : MM α) :=
  fun _ => ⟨[], by simp⟩

/-- `getSt` adds nothing to the trace. -/
theorem traceMono_getSt : TraceMono getSt :=
  fun _ => ⟨[], by simp⟩

/-- `setSt` adds nothing to the trace. -/
theorem traceMono_setSt (f : ClientState → ClientState) : TraceMono (setSt f) :=
  fun _ => ⟨[], by simp⟩

/-- `netCall` appends exactly its invocation. -/
theorem traceMono_netCall (c : NetCall) : TraceMono (netCall c) :=
  fun _ => ⟨[c], by simp⟩

/-- `>>=` composes trace extensions. -/
theorem traceMono_bind {m : MM α} {f : α → MM β} (hm : TraceMono m)
    (hf : ∀ a, TraceMono (f a)) : TraceMono (m >>= f) := by
  intro env
  obtain ⟨d1, h1⟩ := hm env
  rcases hres : m env with ⟨r, env1⟩
  rw [hres] at h1
  have h1a : env1.trace = env.trace ++ d1 := h1
  cases r with
  | ok a =>
    obtain ⟨d2, h2⟩ := hf a env1
    exact ⟨d1 ++ d2, by simp only [mm_run_bind, hres, h2, h1a, List.append_assoc]⟩
  | error e =>
    exact ⟨d1, by simp only [mm_run_bind, hres]; exact h1a⟩

/-- `MM.tryCatch` composes trace extensions. -/
theorem traceMono_tryCatch {m : MM α} {h : PyErr → MM α} (hm : TraceMono m)
    (hh : ∀ e, TraceMono (h e)) : TraceMono (MM.tryCatch m h) := by
  intro env
  obtain ⟨d1, h1⟩ := hm env
  rcases hres : m env with ⟨r, env1⟩
  rw [hres] at h1
  have h1a : env1.trace = env.trace ++ d1 := h1
  cases r with
  | ok a =>
    exact ⟨d1, by simp only [mm_run_tryCatch, hres]; exact h1a⟩
  | error e =>
    obtain ⟨d2, h2⟩ := hh e env1
    exact ⟨d1 ++ d2, by simp only [mm_run_tryCatch, hres, h2, h1a, List.append_assoc]⟩

/-- `_get_session_id` only appends to the trace. -/
theorem traceMono_getSessionId (fr : Bool) : TraceMono (getSessionId fr) := by
  unfold getSessionId
  refine traceMono_bind traceMono_getSt fun st0 => ?_
  split
  · exact traceMono_pure _
  · refine traceMono_bind (traceMono_netCall _) fun resp => ?_
    split
    · exact traceMono_bind (traceMono_setSt _) fun _ => traceMono_throw _
    · exact traceMono_bind (traceMono_setSt _) fun _ => traceMono_throw _
    · split
      · exact traceMono_throw _
      · refine traceMono_bind (traceMono_setSt _) fun _ => ?_
        split
        · exact traceMono_pure _
        · split
          · exact traceMono_throw _
          · exact traceMono_throw _

/-- `_initialize_session` only appends to the trace. -/
theorem traceMono_initializeSession : TraceMono initializeSession := by
  unfold initializeSession
  refine traceMono_bind traceMono_getSt fun st0 => ?_
  split
  · exact traceMono_throw _
  · refine traceMono_bind (traceMono_setSt _) fun _ => ?_
    refine traceMono_bind
      (traceMono_tryCatch (traceMono_getSessionId false) fun e =>
        traceMono_bind (traceMono_setSt _) fun _ => traceMono_throw _)
      fun sid => ?_
    refine traceMono_bind (traceMono_netCall _) fun resp => ?_
    split
    · exact traceMono_throw _
    · exact traceMono_throw _
    · split
      · exact traceMono_throw _
      · split
        · exact traceMono_throw _
        · split
          · split
            · exact traceMono_throw _
            · exact traceMono_throw _
          · exact traceMono_bind (traceMono_netCall _) fun _ => traceMono_pure _

/-- The final error classification only throws: no trace growth. -/
theorem traceMono_handleToolError (tool : String) (args e : Json) :
    TraceMono (handleToolError tool args e) := by
  unfold handleToolError
  split
  · exact traceMono_throw _
  · split
    · exact traceMono_throw _
    · split
      · exact traceMono_throw _
      · split
        · exact traceMono_throw _
        · split
          · exact traceMono_throw _
          · exact traceMono_throw _

/-- The response handling only appends to the trace, given that the
re-entry does. -/
theorem traceMono_callToolResp {m : MM Json} (hm : TraceMono m)
    (tool : String) (args : Json) (fr : Bool) (resp : NetResp) :
    TraceMono (callToolResp m tool args fr resp) := by
  unfold callToolResp
  split
  · exact traceMono_throw _
  · exact traceMono_throw _
  · split
    · split
      · refine traceMono_bind (traceMono_setSt _) fun _ => ?_
        exact traceMono_tryCatch
          (traceMono_bind (traceMono_getSessionId true) fun _ => hm)
          fun e => traceMono_throw _
      · exact traceMono_throw _
    · split
      · exact traceMono_throw _
      · exact traceMono_pure _
      · split
        · exact traceMono_handleToolError _ _ _
        · exact traceMono_throw _

/-- `_call_tool` only appends to the trace. -/
theorem traceMono_callTool (fuel : Nat) (tool : String) (args : Json)
    (rid : Nat) (fr : Bool) : TraceMono (callTool fuel tool args rid fr) := by
  induction fuel generalizing fr with
  | zero => exact traceMono_throw _
  | succ n ih =>
    show TraceMono (callTool (n + 1) tool args rid fr)
    unfold callTool
    refine traceMono_bind traceMono_getSt fun st0 => ?_
    have hrest : TraceMono (do
        let st1 ← getSt
        if !(sidTruthy st1.session_id) then
          MM.throw (.valueErr "No session ID available. Session initialization may have failed.")
        else do
          let session_id := st1.session_id.getD ""
          let resp ← netCall (.postTool session_id tool)
          callToolResp (callTool n tool args rid false) tool args fr resp) := by
      refine traceMono_bind traceMono_getSt fun st1 => ?_
      split
      · exact traceMono_throw _
      · refine traceMono_bind (traceMono_netCall _) fun resp => ?_
        exact traceMono_callToolResp (ih false) tool args fr resp
    dsimp only
    split
    · exact traceMono_bind traceMono_initializeSession fun _ => hrest
    · exact traceMono_bind (traceMono_pure _) fun _ => hrest

/-! ### Which invocations a handshake makes -/

/-- A program that issues no `tools/call` POST: it preserves
tool-freeness of the trace. -/
def NoNewTools (m : MM α) : Prop :=
  ∀ env, noTool env.trace = true → noTool ((m env).2).trace = true

/-- `pure` makes no invocation. -/
theorem noNewTools_pure (a : α) : NoNewTools (pure a : MM α) := fun _ h => h

/-- `MM.throw` makes no invocation. -/
theorem noNewTools_throw (e : PyErr) : NoNewTools (MM.throw e : MM α) := fun _ h => h

/-- `getSt` makes no invocation. -/
theorem noNewTools_getSt : NoNewTools getSt := fun _ h => h

/-- `setSt` makes no invocation. -/
theorem noNewTools_setSt (f : ClientState → ClientState) : NoNewTools (setSt f) :=
  fun _ h => h

/-- `netCall` preserves tool-freeness when the invocation is not a
`tools/call` POST. -/
theorem noNewTools_netCall {c : NetCall} (hc : noTool [c] = true) :
    NoNewTools (netCall c) := by
  intro env h
  simp only [mm_run_netCall, noTool, List.all_append] at *
  simp [h, hc]

/-- `>>=` preserves tool-freeness. -/
theorem noNewTools_bind {m : MM α} {f : α → MM β} (hm : NoNewTools m)
    (hf : ∀ a, NoNewTools (f a)) : NoNewTools (m >>= f) := by
  intro env h
  have h1 := hm env h
  rcases hres : m env with ⟨r, env1⟩
  rw [hres] at h1
  have h1a : noTool env1.trace = true := h1
  cases r with
  | ok a => simpa only [mm_run_bind, hres] using hf a env1 h1a
  | error e => simpa only [mm_run_bind, hres] using h1a

/-- `MM.tryCatch` preserves tool-freeness. -/
theorem noNewTools_tryCatch {m : MM α} {h : PyErr → MM α} (hm : NoNewTools m)
    (hh : ∀ e, NoNewTools (h e)) : NoNewTools (MM.tryCatch m h) := by
  intro env he
  have h1 := hm env he
  rcases hres : m env with ⟨r, env1⟩
  rw [hres] at h1
  have h1a : noTool env1.trace = true := h1
  cases r with
  | ok a => simpa only [mm_run_tryCatch, hres] using h1a
  | error e => simpa only [mm_run_tryCatch, hres] using hh e env1 h1a

/-- `_get_session_id` never issues a `tools/call` POST. -/
theorem noNewTools_getSessionId (fr : Bool) : NoNewTools (getSessionId fr) := by
  unfold getSessionId
  refine noNewTools_bind noNewTools_getSt fun st0 => ?_
  split
  · exact noNewTools_pure _
  · refine noNewTools_bind (noNewTools_netCall (by simp [noTool])) fun resp => ?_
    split
    · exact noNewTools_bind (noNewTools_setSt _) fun _ => noNewTools_throw _
    · exact noNewTools_bind (noNewTools_setSt _) fun _ => noNewTools_throw _
    · split
      · exact noNewTools_throw _
      · refine noNewTools_bind (noNewTools_setSt _) fun _ => ?_
        split
        · exact noNewTools_pure _
        · split
          · exact noNewTools_throw _
          · exact noNewTools_throw _

/-- `_initialize_session` never issues a `tools/call` POST: the handshake
consists of the GET, the initialize POST and the notification POST only. -/
theorem noNewTools_initializeSession : NoNewTools initializeSession := by
  unfold initializeSession
  refine noNewTools_bind noNewTools_getSt fun st0 => ?_
  split
  · exact noNewTools_throw _
  · refine noNewTools_bind (noNewTools_setSt _) fun _ => ?_
    refine noNewTools_bind
      (noNewTools_tryCatch (noNewTools_getSessionId false) fun e =>
        noNewTools_bind (noNewTools_setSt _) fun _ => noNewTools_throw _)
      fun sid => ?_
    refine noNewTools_bind (noNewTools_netCall (by simp [noTool])) fun resp => ?_
    split
    · exact noNewTools_throw _
    · exact noNewTools_throw _
    · split
      · exact noNewTools_throw _
      · split
        · exact noNewTools_throw _
        · split
          · split
            · exact noNewTools_throw _
            · exact noNewTools_throw _
          · exact noNewTools_bind (noNewTools_netCall (by simp [noTool])) fun _ =>
              noNewTools_pure _

/-! ### The shape of a successful inline handshake -/

/-- When `_initialize_session` succeeds from a token-less client, its
trace is exactly the GET, the initialize POST and the notification POST
under one non-empty token, which is then the cached session token. -/
theorem initializeSession_ok_shape (st : ClientState) (sc : Nat → NetResp)
    (h0 : st.session_id = none)
    (hok : (initializeSession { st := st, script := sc, idx := 0, trace := [] }).1 = .ok ()) :
    ∃ t, t ≠ "" ∧
      (initializeSession { st := st, script := sc, idx := 0, trace := [] }).2.st.session_id
        = some t ∧
      (initializeSession { st := st, script := sc, idx := 0, trace := [] }).2.trace =
        [NetCall.getSession, NetCall.postInit t, NetCall.postNotif t] := by
  cases hf : st.init_failed with
  | true => simp [initializeSession, getSessionId, hf, h0, sidTruthy] at hok
  | false =>
  cases hsc0 : sc 0 with
  | connectError m => simp [initializeSession, getSessionId, hf, h0, hsc0, sidTruthy] at hok
  | timeout => simp [initializeSession, getSessionId, hf, h0, hsc0, sidTruthy] at hok
  | http status hdr lines body =>
  by_cases h404 : status = 404
  · simp [initializeSession, getSessionId, hf, h0, hsc0, h404, sidTruthy] at hok
  cases hdr with
  | none =>
    by_cases h200 : status = 200
    · simp [initializeSession, getSessionId, hf, h0, hsc0, h404, h200, sidTruthy] at hok
    · simp [initializeSession, getSessionId, hf, h0, hsc0, h404, h200, sidTruthy] at hok
  | some t =>
  by_cases htb : t = ""
  · by_cases h200 : status = 200
    · simp [initializeSession, getSessionId, hf, h0, hsc0, h404, htb, h200, sidTruthy, sTruthy] at hok
    · simp [initializeSession, getSessionId, hf, h0, hsc0, h404, htb, h200, sidTruthy, sTruthy] at hok
  cases hsc1 : sc 1 with
  | connectError m => simp [initializeSession, getSessionId, hf, h0, hsc0, h404, htb, hsc1, sidTruthy, sTruthy] at hok
  | timeout => simp [initializeSession, getSessionId, hf, h0, hsc0, h404, htb, hsc1, sidTruthy, sTruthy] at hok
  | http s2 hd2 l2 b2 =>
  cases hscan : scanInitAux none l2 with
  | error e => simp [initializeSession, getSessionId, hf, h0, hsc0, h404, htb, hsc1, hscan, sidTruthy, sTruthy] at hok
  | ok p =>
  obtain ⟨initialized, initError⟩ := p
  cases initError with
  | some e =>
    cases hje : jTruthy e with
    | true => simp [initializeSession, getSessionId, hf, h0, hsc0, h404, htb, hsc1, hscan, hje, sidTruthy, sTruthy] at hok
    | false =>
      cases initialized with
      | false =>
        by_cases ha : s2 = 200
        · simp [initializeSession, getSessionId, hf, h0, hsc0, h404, htb, hsc1, hscan, hje, ha, sidTruthy, sTruthy] at hok
        · by_cases hb : s2 = 400
          · simp [initializeSession, getSessionId, hf, h0, hsc0, h404, htb, hsc1, hscan, hje, ha, hb, sidTruthy, sTruthy] at hok
          · simp [initializeSession, getSessionId, hf, h0, hsc0, h404, htb, hsc1, hscan, hje, ha, hb, sidTruthy, sTruthy] at hok
      | true =>
        refine ⟨t, htb, ?_, ?_⟩ <;>
          simp [initializeSession, getSessionId, hf, h0, hsc0, h404, htb, hsc1, hscan, hje, sidTruthy, sTruthy]
  | none =>
    cases initialized with
    | false =>
      by_cases ha : s2 = 200
      · simp [initializeSession, getSessionId, hf, h0, hsc0, h404, htb, hsc1, hscan, ha, sidTruthy, sTruthy] at hok
      · by_cases hb : s2 = 400
        · simp [initializeSession, getSessionId, hf, h0, hsc0, h404, htb, hsc1, hscan, ha, hb, sidTruthy, sTruthy] at hok
        · simp [initializeSession, getSessionId, hf, h0, hsc0, h404, htb, hsc1, hscan, ha, hb, sidTruthy, sTruthy] at hok
    | true =>
      refine ⟨t, htb, ?_, ?_⟩ <;>
        simp [initializeSession, getSessionId, hf, h0, hsc0, h404, htb, hsc1, hscan, sidTruthy, sTruthy]

/-! ### C4: amended statement -/

/-- C4 amended: when a tool is invoked on a client with **no session
token**, either the run makes no `tools/call` POST at all (the inline
handshake failed first), or the trace begins with the full inline
handshake — GET, initialize POST, notification POST under one token `t`
— followed immediately by the first `tools/call` POST under that same
`t`.  (After the stale-session refresh the retried POST is *not*
re-handshaken; that lives in the `Δ` suffix and is the subject of the
counterexample.) -/
theorem c4_amended (sc : Nat → NetResp) (st : ClientState) (h0 : st.session_id = none)
    (fuel : Nat) (tool : String) (args : Json) (rid : Nat) :
    noTool ((callTool fuel tool args rid false
        { st := st, script := sc, idx := 0, trace := [] }).2.trace) = true
    ∨ ∃ t nm Δ, (callTool fuel tool args rid false
        { st := st, script := sc, idx := 0, trace := [] }).2.trace
        = NetCall.getSession :: NetCall.postInit t :: NetCall.postNotif t
            :: NetCall.postTool t nm :: Δ := by
  cases fuel with
  | zero => left; simp [callTool, noTool]
  | succ n =>
    rcases hini : initializeSession { st := st, script := sc, idx := 0, trace := [] }
      with ⟨ri, env1⟩
    cases ri with
    | error e =>
      left
      have hnt : noTool env1.trace = true := by
        have hh := noNewTools_initializeSession
          { st := st, script := sc, idx := 0, trace := [] } (by simp [noTool])
        rw [hini] at hh
        exact hh
      have hrun : callTool (n + 1) tool args rid false
          { st := st, script := sc, idx := 0, trace := [] } = (.error e, env1) := by
        simp only [callTool, mm_run_bind, mm_run_getSt, h0, sidTruthy]
        simp [hini]
      rw [hrun]
      exact hnt
    | ok u =>
      right
      cases u
      obtain ⟨t, htne, hsid, htrace⟩ := initializeSession_ok_shape st sc h0 (by rw [hini])
      rw [hini] at hsid htrace
      have hsid2 : env1.st.session_id = some t := hsid
      have htrace2 : env1.trace = [NetCall.getSession, NetCall.postInit t, NetCall.postNotif t] :=
        htrace
      have hrun : callTool (n + 1) tool args rid false
          { st := st, script := sc, idx := 0, trace := [] }
          = callToolResp (callTool n tool args rid false) tool args false
              (env1.script env1.idx)
              { env1 with idx := env1.idx + 1, trace := env1.trace ++ [NetCall.postTool t tool] } := by
        simp only [callTool, mm_run_bind, mm_run_getSt, h0, sidTruthy]
        simp [hini, hsid2, htne, sidTruthy, sTruthy]
      obtain ⟨Δ, hΔ⟩ := traceMono_callToolResp (traceMono_callTool n tool args rid false)
        tool args false (env1.script env1.idx)
        { env1 with idx := env1.idx + 1, trace := env1.trace ++ [NetCall.postTool t tool] }
      refine ⟨t, tool, Δ, ?_⟩
      rw [hrun, hΔ]
      simp [htrace2]

/-- C4 witness: the theorem applied to a fresh client against a healthy
transport: the handshake prefix is observed. -/
theorem c4_amended_witness :
    noTool ((callTool 3 "add_memory" (Json.obj []) 1 false
        { st := stFresh, script := scriptHealthy, idx := 0, trace := [] }).2.trace) = true
    ∨ ∃ t nm Δ, (callTool 3 "add_memory" (Json.obj []) 1 false
        { st := stFresh, script := scriptHealthy, idx := 0, trace := [] }).2.trace
        = NetCall.getSession :: NetCall.postInit t :: NetCall.postNotif t
            :: NetCall.postTool t nm :: Δ :=
  c4_amended scriptHealthy stFresh rfl 3 "add_memory" (Json.obj []) 1

/-! ### C8: shape-based classification

The counterexample shows `add_memory` can raise an unclassified
`AttributeError`.  The amended claim restricts the transport to HTTP 200
responses whose decodable data lines carry well-shaped payloads; under
that restriction every failure is a `ValueError` (the class carrying the
spec's `ServiceUnavailable`/`RemoteRejected`). -/

/-- The script of an environment is never modified by a program. -/
def PreservesScript (m : MM α) : Prop :=
  ∀ env, ((m env).2).script = env.script

/-- `pure` keeps the script. -/
theorem presScript_pure (a : α) : PreservesScript (pure a : MM α) := fun _ => rfl

/-- `MM.throw` keeps the script. -/
theorem presScript_throw (e : PyErr) : PreservesScript (MM.throw e : MM α) := fun _ => rfl

/-- `getSt` keeps the script. -/
theorem presScript_getSt : PreservesScript getSt := fun _ => rfl

/-- `setSt` keeps the script. -/
theorem presScript_setSt (f : ClientState → ClientState) : PreservesScript (setSt f) :=
  fun _ => rfl

/-- `netCall` keeps the script. -/
theorem presScript_netCall (c : NetCall) : PreservesScript (netCall c) := fun _ => rfl

/-- `>>=` keeps the script. -/
theorem presScript_bind {m : MM α} {f : α → MM β} (hm : PreservesScript m)
    (hf : ∀ a, PreservesScript (f a)) : PreservesScript (m >>= f) := by
  intro env
  have h1 := hm env
  rcases hres : m env with ⟨r, env1⟩
  rw [hres] at h1
  have h1a : env1.script = env.script := h1
  cases r with
  | ok a => simp only [mm_run_bind, hres]; rw [hf a env1, h1a]
  | error e => simpa only [mm_run_bind, hres] using h1a

/-- `MM.tryCatch` keeps the script. -/
theorem presScript_tryCatch {m : MM α} {h : PyErr → MM α} (hm : PreservesScript m)
    (hh : ∀ e, PreservesScript (h e)) : PreservesScript (MM.tryCatch m h) := by
  intro env
  have h1 := hm env
  rcases hres : m env with ⟨r, env1⟩
  rw [hres] at h1
  have h1a : env1.script = env.script := h1
  cases r with
  | ok a => simpa only [mm_run_tryCatch, hres] using h1a
  | error e => simp only [mm_run_tryCatch, hres]; rw [hh e env1, h1a]

/-- `_get_session_id` keeps the script. -/
theorem presScript_getSessionId (fr : Bool) : PreservesScript (getSessionId fr) := by
  unfold getSessionId
  refine presScript_bind presScript_getSt fun st0 => ?_
  split
  · exact presScript_pure _
  · refine presScript_bind (presScript_netCall _) fun resp => ?_
    split
    · exact presScript_bind (presScript_setSt _) fun _ => presScript_throw _
    · exact presScript_bind (presScript_setSt _) fun _ => presScript_throw _
    · split
      · exact presScript_throw _
      · refine presScript_bind (presScript_setSt _) fun _ => ?_
        split
        · exact presScript_pure _
        · split
          · exact presScript_throw _
          · exact presScript_throw _

/-- `_initialize_session` keeps the script. -/
theorem presScript_initializeSession : PreservesScript initializeSession := by
  unfold initializeSession
  refine presScript_bind presScript_getSt fun st0 => ?_
  split
  · exact presScript_throw _
  · refine presScript_bind (presScript_setSt _) fun _ => ?_
    refine presScript_bind
      (presScript_tryCatch (presScript_getSessionId false) fun e =>
        presScript_bind (presScript_setSt _) fun _ => presScript_throw _)
      fun sid => ?_
    refine presScript_bind (presScript_netCall _) fun resp => ?_
    split
    · exact presScript_throw _
    · exact presScript_throw _
    · split
      · exact presScript_throw _
      · split
        · exact presScript_throw _
        · split
          · split
            · exact presScript_throw _
            · exact presScript_throw _
          · exact presScript_bind (presScript_netCall _) fun _ => presScript_pure _

/-- The session guard keeps the script. -/
theorem presScript_ensureSession : PreservesScript ensureSession := by
  unfold ensureSession
  refine presScript_bind presScript_getSt fun st0 => ?_
  split
  · refine presScript_tryCatch ?_ fun e =>
      presScript_bind (presScript_setSt _) fun _ => presScript_throw _
    refine presScript_bind presScript_getSt fun stA => ?_
    dsimp only
    split
    · exact presScript_bind (presScript_setSt _) fun _ => presScript_initializeSession
    · exact presScript_bind (presScript_pure _) fun _ => presScript_initializeSession
  · exact presScript_pure _

/-! #### Shape predicates -/

/-- The post-processing of `add_memory`/`search_memory`
(`parsePublicResult`) cannot hit an unclassified site on this value: a
non-empty list must carry an object head whose `text` is absent, falsy,
empty, or a decodable string (its decode is unguarded in the source). -/
def postSafe : Json → Bool
  | .arr (x :: _) =>
    (match x with
     | .obj kvs =>
       (match jLookup (.obj kvs) "text" with
        | none => true
        | some (.str s) => s == "" || (jsonLoads s).isSome
        | some t => !(jTruthy t))
     | _ => false)
  | _ => true

/-- The in-loop normalization of `_call_tool` succeeds on this `result`
payload and produces a `postSafe` value. -/
def wsResult : Json → Bool
  | .arr (x :: _) =>
    (match x with
     | .obj kvs =>
       (match jLookup (.obj kvs) "text" with
        | none => true
        | some (.str s) =>
          s == "" ||
            (match jsonLoads s with
             | some parsed => postSafe parsed
             | none => true)
        | some t => !(jTruthy t))
     | _ => false)
  | .obj kvs =>
    (match jLookup (.obj kvs) "structuredContent" with
     | some sc => postSafe sc
     | none =>
       (match jLookup (.obj kvs) "content" with
        | some (.arr (y :: _)) =>
          (match y with
           | .obj ykvs =>
             (match jLookup (.obj ykvs) "text" with
              | none => true
              | some (.str s) =>
                s == "" ||
                  (match jsonLoads s with
                   | some parsed => postSafe parsed
                   | none => true)
              | some t => !(jTruthy t))
           | _ => false)
        | some (.str s) =>
          (match jsonLoads s with
           | some parsed => postSafe parsed
           | none => true)
        | _ => true))
  | _ => true

/-- A well-shaped decodable data line: an object whose `error` payload
(when the line is an error line) is an object, and whose `result`
payload otherwise is well-shaped. -/
def wsData : Json → Bool
  | .obj kvs =>
    (match jLookup (.obj kvs) "error" with
     | some (.obj _) => true
     | some _ => false
     | none =>
       (match jLookup (.obj kvs) "result" with
        | some r => wsResult r
        | none => true))
  | _ => false

/-- A well-shaped SSE line: undecodable and non-data lines are harmless. -/
def wsLine : SSELine → Bool
  | .data (some d) => wsData d
  | _ => true

/-- A well-shaped transport response: HTTP status 200 with well-shaped
lines. -/
def wsResp : NetResp → Bool
  | .http status _ lines _ => (status == 200) && lines.all wsLine
  | _ => false

/-- A captured error payload that the post-loop classification can
process: absent or an object. -/
def errOk : Option Json → Bool
  | none => true
  | some (.obj _) => true
  | some _ => false

/-- A safe scan outcome: a found value is `postSafe`, a captured error is
processable. -/
def scanOutSafe : ScanOut → Bool
  | .found v => postSafe v
  | .notFound e => errOk e

/-- Key-membership (`in`) agrees with lookup on objects. -/
theorem any_key_eq_lookup (kvs : List (String × Json)) (key : String) :
    (kvs.any (fun p => p.1 == key)) = (jLookup (Json.obj kvs) key).isSome := by
  induction kvs with
  | nil => simp [jLookup]
  | cons p ps ih =>
    by_cases hp : p.1 == key
    · simp [jLookup, List.find?, hp]
    · simp only [List.any_cons, hp, Bool.false_or]
      rw [ih]
      simp [jLookup, List.find?, hp]

/-- On a well-shaped `result` payload, the in-loop normalization returns
a `postSafe` value. -/
theorem normalizeResult_safe (r : Json) (h : wsResult r = true) :
    ∃ v, normalizeResult r = .ok v ∧ postSafe v = true := by
  cases r with
  | null => exact ⟨_, rfl, rfl⟩
  | bool b => exact ⟨_, rfl, rfl⟩
  | num n => exact ⟨_, rfl, rfl⟩
  | str s => exact ⟨_, rfl, rfl⟩
  | arr xs =>
    cases xs with
    | nil => exact ⟨_, rfl, rfl⟩
    | cons x rest =>
      cases x with
      | obj kvs =>
        cases htx : jLookup (Json.obj kvs) "text" with
        | none =>
          refine ⟨Json.arr (Json.obj kvs :: rest), ?_, ?_⟩ <;>
            simp [normalizeResult, postSafe, jTruthy, htx]
        | some t =>
          cases t with
          | str s =>
            by_cases hse : s = ""
            · subst hse
              refine ⟨Json.arr (Json.obj kvs :: rest), ?_, ?_⟩ <;>
                simp [normalizeResult, postSafe, jTruthy, htx]
            · cases hload : jsonLoads s with
              | some parsed =>
                have hp : postSafe parsed = true := by
                  simp only [wsResult, htx, hload] at h
                  simpa [hse] using h
                exact ⟨parsed, by simp [normalizeResult, jTruthy, htx, hse, hload], hp⟩
              | none =>
                refine ⟨Json.obj [("status", Json.num 200), ("message", Json.str s)], ?_, ?_⟩
                · simp [normalizeResult, jTruthy, htx, hse, hload]
                · simp [postSafe]
          | null =>
            refine ⟨Json.arr (Json.obj kvs :: rest), ?_, ?_⟩ <;>
              simp [normalizeResult, postSafe, jTruthy, htx]
          | bool b =>
            have hb : b = false := by
              simp only [wsResult, htx] at h
              simpa [jTruthy] using h
            subst hb
            refine ⟨Json.arr (Json.obj kvs :: rest), ?_, ?_⟩ <;>
              simp [normalizeResult, postSafe, jTruthy, htx]
          | num n =>
            have hn : n = 0 := by
              simp only [wsResult, htx] at h
              simpa [jTruthy] using h
            subst hn
            refine ⟨Json.arr (Json.obj kvs :: rest), ?_, ?_⟩ <;>
              simp [normalizeResult, postSafe, jTruthy, htx]
          | arr ys =>
            have hy : ys.isEmpty = true := by
              simp only [wsResult, htx] at h
              simpa [jTruthy] using h
            cases ys with
            | nil =>
              refine ⟨Json.arr (Json.obj kvs :: rest), ?_, ?_⟩ <;>
                simp [normalizeResult, postSafe, jTruthy, htx]
            | cons a b => simp [List.isEmpty] at hy
          | obj okvs =>
            have hy : okvs.isEmpty = true := by
              simp only [wsResult, htx] at h
              simpa [jTruthy] using h
            cases okvs with
            | nil =>
              refine ⟨Json.arr (Json.obj kvs :: rest), ?_, ?_⟩ <;>
                simp [normalizeResult, postSafe, jTruthy, htx]
            | cons a b => simp [List.isEmpty] at hy
      | null => simp [wsResult] at h
      | bool b => simp [wsResult] at h
      | num n => simp [wsResult] at h
      | str s => simp [wsResult] at h
      | arr ys => simp [wsResult] at h
  | obj kvs =>
    cases hsc : jLookup (Json.obj kvs) "structuredContent" with
    | some sc =>
      have hp : postSafe sc = true := by simpa only [wsResult, hsc] using h
      exact ⟨sc, by simp [normalizeResult, hsc], hp⟩
    | none =>
      cases hct : jLookup (Json.obj kvs) "content" with
      | none => exact ⟨Json.obj kvs, by simp [normalizeResult, hsc, hct], rfl⟩
      | some c =>
        cases c with
        | null => exact ⟨Json.obj kvs, by simp [normalizeResult, hsc, hct], rfl⟩
        | bool b => exact ⟨Json.obj kvs, by simp [normalizeResult, hsc, hct], rfl⟩
        | num n => exact ⟨Json.obj kvs, by simp [normalizeResult, hsc, hct], rfl⟩
        | obj ckvs => exact ⟨Json.obj ckvs, by simp [normalizeResult, hsc, hct], rfl⟩
        | str s =>
          cases hload : jsonLoads s with
          | some parsed =>
            have hp : postSafe parsed = true := by
              simpa only [wsResult, hsc, hct, hload] using h
            exact ⟨parsed, by simp [normalizeResult, hsc, hct, hload], hp⟩
          | none =>
            refine ⟨Json.obj [("status", Json.num 200), ("message", Json.str s)], ?_, ?_⟩
            · simp [normalizeResult, hsc, hct, hload]
            · simp [postSafe]
        | arr ys =>
          cases ys with
          | nil => exact ⟨Json.obj kvs, by simp [normalizeResult, hsc, hct], rfl⟩
          | cons y yrest =>
            cases y with
            | obj ykvs =>
              cases htx : jLookup (Json.obj ykvs) "text" with
              | none =>
                exact ⟨Json.obj kvs, by simp [normalizeResult, hsc, hct, jTruthy, htx], rfl⟩
              | some t =>
                cases t with
                | str s =>
                  by_cases hse : s = ""
                  · subst hse
                    exact ⟨Json.obj kvs,
                      by simp [normalizeResult, hsc, hct, jTruthy, htx], rfl⟩
                  · cases hload : jsonLoads s with
                    | some parsed =>
                      have hp : postSafe parsed = true := by
                        simp only [wsResult, hsc, hct, htx, hload] at h
                        simpa [hse] using h
                      exact ⟨parsed,
                        by simp [normalizeResult, hsc, hct, jTruthy, htx, hse, hload], hp⟩
                    | none =>
                      refine ⟨Json.obj [("status", Json.num 200), ("message", Json.str s)],
                        ?_, ?_⟩
                      · simp [normalizeResult, hsc, hct, jTruthy, htx, hse, hload]
                      · simp [postSafe]
                | null =>
                  exact ⟨Json.obj kvs, by simp [normalizeResult, hsc, hct, jTruthy, htx], rfl⟩
                | bool b =>
                  have hb : b = false := by
                    simp only [wsResult, hsc, hct, htx] at h
                    simpa [jTruthy] using h
                  subst hb
                  exact ⟨Json.obj kvs, by simp [normalizeResult, hsc, hct, jTruthy, htx], rfl⟩
                | num n =>
                  have hn : n = 0 := by
                    simp only [wsResult, hsc, hct, htx] at h
                    simpa [jTruthy] using h
                  subst hn
                  exact ⟨Json.obj kvs, by simp [normalizeResult, hsc, hct, jTruthy, htx], rfl⟩
                | arr zs =>
                  have hy : zs.isEmpty = true := by
                    simp only [wsResult, hsc, hct, htx] at h
                    simpa [jTruthy] using h
                  cases zs with
                  | nil =>
                    exact ⟨Json.obj kvs,
                      by simp [normalizeResult, hsc, hct, jTruthy, htx], rfl⟩
                  | cons a b => simp [List.isEmpty] at hy
                | obj zkvs =>
                  have hy : zkvs.isEmpty = true := by
                    simp only [wsResult, hsc, hct, htx] at h
                    simpa [jTruthy] using h
                  cases zkvs with
                  | nil =>
                    exact ⟨Json.obj kvs,
                      by simp [normalizeResult, hsc, hct, jTruthy, htx], rfl⟩
                  | cons a b => simp [List.isEmpty] at hy
            | null => simp [wsResult, hsc, hct] at h
            | bool b => simp [wsResult, hsc, hct] at h
            | num n => simp [wsResult, hsc, hct] at h
            | str s => simp [wsResult, hsc, hct] at h
            | arr zs => simp [wsResult, hsc, hct] at h

/-- On a `postSafe` value, the public post-processing succeeds. -/
theorem parsePublicResult_safe (v : Json) (h : postSafe v = true) :
    ∃ w, parsePublicResult v = .ok w := by
  cases v with
  | null => exact ⟨_, rfl⟩
  | bool b => exact ⟨_, rfl⟩
  | num n => exact ⟨_, rfl⟩
  | str s => exact ⟨_, rfl⟩
  | obj kvs =>
    cases hct : jLookup (Json.obj kvs) "content" with
    | none => exact ⟨Json.obj kvs, by simp [parsePublicResult, hct]⟩
    | some c => exact ⟨c, by simp [parsePublicResult, hct]⟩
  | arr xs =>
    cases xs with
    | nil => exact ⟨_, rfl⟩
    | cons x rest =>
      cases x with
      | obj kvs =>
        cases htx : jLookup (Json.obj kvs) "text" with
        | none =>
          exact ⟨Json.arr (Json.obj kvs :: rest),
            by simp [parsePublicResult, jTruthy, htx]⟩
        | some t =>
          cases t with
          | str s =>
            by_cases hse : s = ""
            · subst hse
              exact ⟨Json.arr (Json.obj kvs :: rest),
                by simp [parsePublicResult, jTruthy, htx]⟩
            · cases hload : jsonLoads s with
              | some parsed =>
                exact ⟨parsed, by simp [parsePublicResult, jTruthy, htx, hse, hload]⟩
              | none =>
                exfalso
                simp only [postSafe, htx, hload] at h
                simp [hse] at h
          | null =>
            exact ⟨Json.arr (Json.obj kvs :: rest),
              by simp [parsePublicResult, jTruthy, htx]⟩
          | bool b =>
            have hb : b = false := by
              simp only [postSafe, htx] at h
              simpa [jTruthy] using h
            subst hb
            exact ⟨Json.arr (Json.obj kvs :: rest),
              by simp [parsePublicResult, jTruthy, htx]⟩
          | num n =>
            have hn : n = 0 := by
              simp only [postSafe, htx] at h
              simpa [jTruthy] using h
            subst hn
            exact ⟨Json.arr (Json.obj kvs :: rest),
              by simp [parsePublicResult, jTruthy, htx]⟩
          | arr zs =>
            have hy : zs.isEmpty = true := by
              simp only [postSafe, htx] at h
              simpa [jTruthy] using h
            cases zs with
            | nil =>
              exact ⟨Json.arr (Json.obj kvs :: rest),
                by simp [parsePublicResult, jTruthy, htx]⟩
            | cons a b => simp [List.isEmpty] at hy
          | obj zkvs =>
            have hy : zkvs.isEmpty = true := by
              simp only [postSafe, htx] at h
              simpa [jTruthy] using h
            cases zkvs with
            | nil =>
              exact ⟨Json.arr (Json.obj kvs :: rest),
                by simp [parsePublicResult, jTruthy, htx]⟩
            | cons a b => simp [List.isEmpty] at hy
      | null => simp [postSafe] at h
      | bool b => simp [postSafe] at h
      | num n => simp [postSafe] at h
      | str s => simp [postSafe] at h
      | arr ys => simp [postSafe] at h

/-- Scanning a stream of well-shaped lines in `_call_tool` never raises,
and its outcome is safe to post-process. -/
theorem scanToolAux_safe (lines : List SSELine) (err : Option Json)
    (hl : lines.all wsLine = true) (he : errOk err = true) :
    ∃ out, scanToolAux err lines = .ok out ∧ scanOutSafe out = true := by
  induction lines generalizing err with
  | nil => exact ⟨.notFound err, rfl, he⟩
  | cons l rest ih =>
    have hl1 : wsLine l = true := by
      have := hl
      simp only [List.all_cons, Bool.and_eq_true] at this
      exact this.1
    have hlr : rest.all wsLine = true := by
      have := hl
      simp only [List.all_cons, Bool.and_eq_true] at this
      exact this.2
    cases l with
    | event => simpa only [scanToolAux] using ih err hlr he
    | blank => simpa only [scanToolAux] using ih err hlr he
    | other => simpa only [scanToolAux] using ih err hlr he
    | data payload =>
      cases payload with
      | none => simpa only [scanToolAux] using ih err hlr he
      | some d =>
        cases d with
        | null => simp [wsLine, wsData] at hl1
        | bool b => simp [wsLine, wsData] at hl1
        | num n => simp [wsLine, wsData] at hl1
        | str s => simp [wsLine, wsData] at hl1
        | arr xs => simp [wsLine, wsData] at hl1
        | obj kvs =>
          cases hle : jLookup (Json.obj kvs) "error" with
          | some e =>
            have heo : errOk (some e) = true := by
              cases e with
              | obj ekvs => rfl
              | null => simp [wsLine, wsData, hle] at hl1
              | bool b => simp [wsLine, wsData, hle] at hl1
              | num n => simp [wsLine, wsData, hle] at hl1
              | str s => simp [wsLine, wsData, hle] at hl1
              | arr xs => simp [wsLine, wsData, hle] at hl1
            obtain ⟨out, hout, hsafe⟩ := ih (some e) hlr heo
            refine ⟨out, ?_, hsafe⟩
            simp only [scanToolAux, pyIn, any_key_eq_lookup, hle, Option.isSome_some,
              pyIndex, jLookup]
            simp only [jLookup] at hle
            simp [hle, hout]
          | none =>
            cases hlr2 : jLookup (Json.obj kvs) "result" with
            | some r =>
              have hwr : wsResult r = true := by
                simpa only [wsLine, wsData, hle, hlr2] using hl1
              obtain ⟨v, hnv, hpv⟩ := normalizeResult_safe r hwr
              refine ⟨.found v, ?_, hpv⟩
              simp only [scanToolAux, pyIn, any_key_eq_lookup, hle, hlr2,
                Option.isSome_some, Option.isSome_none, pyIndex]
              simp only [jLookup] at hle hlr2
              simp [hle, hlr2, hnv]
            | none =>
              obtain ⟨out, hout, hsafe⟩ := ih err hlr he
              refine ⟨out, ?_, hsafe⟩
              simp only [scanToolAux, pyIn, any_key_eq_lookup, hle, hlr2]
              simp [hout]

/-- Scanning a stream of well-shaped lines in the initialize handshake
never raises. -/
theorem scanInitAux_safe (lines : List SSELine) (err : Option Json)
    (hl : lines.all wsLine = true) :
    ∃ p, scanInitAux err lines = .ok p := by
  induction lines generalizing err with
  | nil => exact ⟨(false, err), rfl⟩
  | cons l rest ih =>
    have hl1 : wsLine l = true := by
      have := hl
      simp only [List.all_cons, Bool.and_eq_true] at this
      exact this.1
    have hlr : rest.all wsLine = true := by
      have := hl
      simp only [List.all_cons, Bool.and_eq_true] at this
      exact this.2
    cases l with
    | event => simpa only [scanInitAux] using ih err hlr
    | blank => simpa only [scanInitAux] using ih err hlr
    | other => simpa only [scanInitAux] using ih err hlr
    | data payload =>
      cases payload with
      | none => simpa only [scanInitAux] using ih err hlr
      | some d =>
        cases d with
        | null => simp [wsLine, wsData] at hl1
        | bool b => simp [wsLine, wsData] at hl1
        | num n => simp [wsLine, wsData] at hl1
        | str s => simp [wsLine, wsData] at hl1
        | arr xs => simp [wsLine, wsData] at hl1
        | obj kvs =>
          cases hres : jLookup (Json.obj kvs) "result" with
          | some r =>
            refine ⟨(true, err), ?_⟩
            simp only [scanInitAux, pyIn, any_key_eq_lookup, hres]
            simp
          | none =>
            cases hle : jLookup (Json.obj kvs) "error" with
            | some e =>
              obtain ⟨p, hp⟩ := ih (some e) hlr
              refine ⟨p, ?_⟩
              simp only [scanInitAux, pyIn, any_key_eq_lookup, hres, hle,
                Option.isSome_some, Option.isSome_none, pyIndex]
              simp only [jLookup] at hle
              simp [hle, hp]
            | none =>
              obtain ⟨p, hp⟩ := ih err hlr
              refine ⟨p, ?_⟩
              simp only [scanInitAux, pyIn, any_key_eq_lookup, hres, hle]
              simp [hp]

/-- The final error classification on an object payload always raises a
`ValueError`. -/
theorem handleToolError_classified (tool : String) (args : Json)
    (ekvs : List (String × Json)) (env : Env) :
    ∃ msg, (handleToolError tool args (Json.obj ekvs) env).1 = .error (.valueErr msg) := by
  unfold handleToolError
  simp only [pyGet]
  split
  · exact ⟨_, rfl⟩
  · split
    · exact ⟨_, rfl⟩
    · exact ⟨_, rfl⟩

/-- `isValueErr` certifies the existential form of classification. -/
theorem isValueErr_ex {r : Except PyErr Json} (h : isValueErr r = true) :
    ∃ msg, r = .error (.valueErr msg) := by
  cases r with
  | ok v => simp [isValueErr] at h
  | error e =>
    cases e with
    | valueErr m => exact ⟨m, rfl⟩
    | attrErr => simp [isValueErr] at h
    | typeErr => simp [isValueErr] at h
    | keyErr => simp [isValueErr] at h
    | jsonDecodeErr => simp [isValueErr] at h
    | connectErr m => simp [isValueErr] at h
    | timeoutErr => simp [isValueErr] at h
    | nonTermination => simp [isValueErr] at h

/-- A well-shaped response is an HTTP 200 with well-shaped lines. -/
theorem wsResp_inv (r : NetResp) (h : wsResp r = true) :
    ∃ hdr lines body, r = .http 200 hdr lines body ∧ lines.all wsLine = true := by
  cases r with
  | connectError m => simp [wsResp] at h
  | timeout => simp [wsResp] at h
  | http status hdr lines body =>
    have h2 : (status == 200) = true ∧ lines.all wsLine = true := by
      simpa [wsResp, Bool.and_eq_true] using h
    have hst : status = 200 := by simpa using h2.1
    exact ⟨hdr, lines, body, by rw [hst], h2.2⟩

/-- The error classification at the end of `_call_tool` raises a
`ValueError` whenever the captured payload is an object. -/
theorem handleToolError_valueErr (tool : String) (args : Json)
    (ekvs : List (String × Json)) (env : Env) :
    isValueErr (handleToolError tool args (Json.obj ekvs) env).1 = true := by
  unfold handleToolError
  simp only [pyGet]
  split
  · rfl
  · split
    · rfl
    · rfl

/-- The session guard either succeeds or raises the caller-facing
unavailability `ValueError`: every exception from the re-attempted
initialization is wrapped. -/
theorem ensureSession_classified (env : Env) :
    (ensureSession env).1 = .ok () ∨ isValueErr (ensureSession env).1 = true := by
  unfold ensureSession
  simp only [mm_run_bind, mm_run_getSt]
  split
  · simp only [mm_run_tryCatch]
    split
    · left
      rename_i a e1 heq
      cases a
      rfl
    · right
      simp
  · left
    rfl

/-- Under a well-shaped transport, `_initialize_session` either succeeds
or raises a `ValueError`: the response statuses are all 200 (so the
connect/timeout and HTTP-status failures cannot occur) and the streams
are well-shaped (so the scan cannot raise `TypeError`). -/
theorem initializeSession_classified (env : Env)
    (hs : ∀ n, wsResp (env.script n) = true) :
    (initializeSession env).1 = .ok () ∨ isValueErr (initializeSession env).1 = true := by
  obtain ⟨hdr0, lines0, body0, he0, hl0⟩ := wsResp_inv _ (hs env.idx)
  by_cases hf : env.st.init_failed = true
  · right
    simp [initializeSession, hf]
  · by_cases hc : sidTruthy env.st.session_id = true
    · -- cached token: the first network call is the initialize POST
      obtain ⟨p, hscan⟩ := scanInitAux_safe lines0 none hl0
      obtain ⟨initialized, initError⟩ := p
      cases initError with
      | some e =>
        cases hje : jTruthy e with
        | true =>
          right
          simp [initializeSession, getSessionId, hf, hc, he0, hscan, hje]
        | false =>
          cases initialized with
          | true =>
            left
            simp [initializeSession, getSessionId, hf, hc, he0, hscan, hje]
          | false =>
            right
            simp [initializeSession, getSessionId, hf, hc, he0, hscan, hje]
      | none =>
        cases initialized with
        | true =>
          left
          simp [initializeSession, getSessionId, hf, hc, he0, hscan]
        | false =>
          right
          simp [initializeSession, getSessionId, hf, hc, he0, hscan]
    · -- fresh token via the GET, then the initialize POST
      have hcf : sidTruthy env.st.session_id = false := by simpa using hc
      by_cases hhb : sidTruthy hdr0 = true
      · obtain ⟨hdr1, lines1, body1, he1, hl1⟩ := wsResp_inv _ (hs (env.idx + 1))
        obtain ⟨p, hscan⟩ := scanInitAux_safe lines1 none hl1
        obtain ⟨initialized, initError⟩ := p
        cases initError with
        | some e =>
          cases hje : jTruthy e with
          | true =>
            right
            simp [initializeSession, getSessionId, hf, hcf, he0, he1, hhb, hscan, hje]
          | false =>
            cases initialized with
            | true =>
              left
              simp [initializeSession, getSessionId, hf, hcf, he0, he1, hhb, hscan, hje]
            | false =>
              right
              simp [initializeSession, getSessionId, hf, hcf, he0, he1, hhb, hscan, hje]
        | none =>
          cases initialized with
          | true =>
            left
            simp [initializeSession, getSessionId, hf, hcf, he0, he1, hhb, hscan]
          | false =>
            right
            simp [initializeSession, getSessionId, hf, hcf, he0, he1, hhb, hscan]
      · have hhf : sidTruthy hdr0 = false := by simpa using hhb
        right
        simp [initializeSession, getSessionId, hf, hcf, he0, hhf]

/-- On an HTTP 200 response with a well-shaped stream, `_call_tool`'s
response handling either returns a `postSafe` value or raises a
`ValueError` — in particular the session-refresh retry is unreachable. -/
theorem callToolResp_safe200 (recurse : MM Json) (tool : String) (args : Json)
    (fr : Bool) (hdr : Option String) (lines : List SSELine) (body : String)
    (hl : lines.all wsLine = true) (env2 : Env) :
    (∃ v, (callToolResp recurse tool args fr (.http 200 hdr lines body) env2).1 = .ok v
        ∧ postSafe v = true)
    ∨ isValueErr (callToolResp recurse tool args fr (.http 200 hdr lines body) env2).1 = true := by
  obtain ⟨out, hout, hsafe⟩ := scanToolAux_safe lines none hl rfl
  cases out with
  | found v =>
    left
    refine ⟨v, ?_, ?_⟩
    · simp [callToolResp, scanTool, hout]
    · simpa [scanOutSafe] using hsafe
  | notFound ef =>
    cases ef with
    | none =>
      right
      simp [callToolResp, scanTool, hout]
    | some e =>
      cases e with
      | obj ekvs =>
        cases hjt : jTruthy (Json.obj ekvs) with
        | true =>
          right
          have hh := handleToolError_valueErr tool args ekvs env2
          simpa [callToolResp, scanTool, hout, hjt] using hh
        | false =>
          right
          simp [callToolResp, scanTool, hout, hjt]
      | null => simp [scanOutSafe, errOk] at hsafe
      | bool b => simp [scanOutSafe, errOk] at hsafe
      | num n => simp [scanOutSafe, errOk] at hsafe
      | str s => simp [scanOutSafe, errOk] at hsafe
      | arr xs => simp [scanOutSafe, errOk] at hsafe

/-- `isValueErr` depends only on the error, not the value type. -/
theorem isValueErr_cast {e : PyErr}
    (h : isValueErr (Except.error e : Except PyErr Unit) = true) :
    isValueErr (Except.error e : Except PyErr Json) = true := by
  cases e <;> simp_all [isValueErr]

/-- Under a well-shaped transport, `_call_tool` (with fuel to spare)
either returns a `postSafe` value or raises a `ValueError`: every inline
initialization failure is a `ValueError`, a still-missing token raises
the "No session ID available" `ValueError`, and the 200-status response
handling is covered by `callToolResp_safe200`. -/
theorem callTool_safe (m : Nat) (tool : String) (args : Json) (rid : Nat)
    (fr : Bool) (env : Env) (hs : ∀ n, wsResp (env.script n) = true) :
    (∃ v, (callTool (m + 1) tool args rid fr env).1 = .ok v ∧ postSafe v = true)
    ∨ isValueErr (callTool (m + 1) tool args rid fr env).1 = true := by
  by_cases hc : sidTruthy env.st.session_id = true
  · -- cached token: the POST happens at the current script index
    obtain ⟨hdr0, lines0, body0, he0, hl0⟩ := wsResp_inv _ (hs env.idx)
    have heval : callTool (m + 1) tool args rid fr env
        = callToolResp (callTool m tool args rid false) tool args fr
            (NetResp.http 200 hdr0 lines0 body0)
            ⟨env.st, env.script, env.idx + 1,
              env.trace ++ [NetCall.postTool (env.st.session_id.getD "") tool]⟩ := by
      simp only [callTool, mm_run_bind, mm_run_getSt, mm_run_pure, mm_run_netCall]
      simp [hc, he0]
    rw [heval]
    exact callToolResp_safe200 _ tool args fr hdr0 lines0 body0 hl0 _
  · -- no cached token: inline initialization first
    have hcf : sidTruthy env.st.session_id = false := by simpa using hc
    rcases hI : initializeSession env with ⟨rI, envI⟩
    have hscr : envI.script = env.script := by
      have h3 := presScript_initializeSession env
      rw [hI] at h3
      exact h3
    cases rI with
    | error e =>
      have hclass := initializeSession_classified env hs
      rw [hI] at hclass
      have hve : isValueErr (Except.error e : Except PyErr Unit) = true := by
        rcases hclass with h | h
        · exact absurd h (by simp)
        · exact h
      right
      have heval : (callTool (m + 1) tool args rid fr env).1 = .error e := by
        simp only [callTool, mm_run_bind, mm_run_getSt, mm_run_pure]
        simp [hcf, hI]
      rw [heval]
      exact isValueErr_cast hve
    | ok u =>
      cases u
      by_cases hc2 : sidTruthy envI.st.session_id = true
      · -- token obtained: the POST happens at the post-init script index
        have hsI : wsResp (envI.script envI.idx) = true := by
          rw [hscr]
          exact hs envI.idx
        obtain ⟨hdr0, lines0, body0, he0, hl0⟩ := wsResp_inv _ hsI
        have heval : callTool (m + 1) tool args rid fr env
            = callToolResp (callTool m tool args rid false) tool args fr
                (NetResp.http 200 hdr0 lines0 body0)
                ⟨envI.st, envI.script, envI.idx + 1,
                  envI.trace ++ [NetCall.postTool (envI.st.session_id.getD "") tool]⟩ := by
          simp only [callTool, mm_run_bind, mm_run_getSt, mm_run_pure]
          simp [hcf, hI, hc2, he0]
        rw [heval]
        exact callToolResp_safe200 _ tool args fr hdr0 lines0 body0 hl0 _
      · -- initialization "succeeded" but left no truthy token
        have hc2f : sidTruthy envI.st.session_id = false := by simpa using hc2
        right
        have heval : (callTool (m + 1) tool args rid fr env).1
            = .error (.valueErr
                "No session ID available. Session initialization may have failed.") := by
          simp only [callTool, mm_run_bind, mm_run_getSt, mm_run_pure]
          simp [hcf, hI, hc2f]
        rw [heval]
        rfl

/-- The tool call plus the shared result post-processing, under a
well-shaped transport: a value or a `ValueError`.  This is the common
tail of `add_memory` and `search_memory`. -/
theorem callToolParse (m : Nat) (tool : String) (args : Json) (rid : Nat)
    (envE : Env) (hsE : ∀ n, wsResp (envE.script n) = true) :
    (∃ w, ((callTool (m + 1) tool args rid false >>= fun result =>
        match parsePublicResult result with
        | .error e => MM.throw e
        | .ok v => pure v) envE).1 = .ok w)
    ∨ ∃ msg, ((callTool (m + 1) tool args rid false >>= fun result =>
        match parsePublicResult result with
        | .error e => MM.throw e
        | .ok v => pure v) envE).1 = .error (.valueErr msg) := by
  rcases hC : callTool (m + 1) tool args rid false envE with ⟨rC, envC⟩
  have hcs := callTool_safe m tool args rid false envE hsE
  rw [hC] at hcs
  cases rC with
  | error e =>
    right
    have hve : isValueErr (Except.error e : Except PyErr Json) = true := by
      rcases hcs with ⟨v, hv, _⟩ | h
      · exact absurd hv (by simp)
      · exact h
    obtain ⟨msg, hm⟩ := isValueErr_ex hve
    refine ⟨msg, ?_⟩
    simp only [mm_run_bind, hC]
    simpa using hm
  | ok v =>
    rcases hcs with ⟨v', hv', hps⟩ | h
    · have hvv : v = v' := by simpa using hv'
      obtain ⟨w, hw⟩ := parsePublicResult_safe v (hvv ▸ hps)
      left
      refine ⟨w, ?_⟩
      simp only [mm_run_bind, hC]
      simp [hw]
    · exact absurd h (by simp)

/-- C8 (amended): under a transport whose responses are all HTTP 200
with well-shaped SSE streams (`wsResp`), `add_memory` either returns a
result value or raises a `ValueError` — the class carrying the spec's
`ServiceUnavailable`/`RemoteRejected` messages — and never an
unclassified error.  (The unamended claim is refuted by
`c8_counterexample`: a malformed stream can raise `AttributeError`.) -/
theorem c8_amended (m : Nat) (content : String) (user_id : Option String)
    (env : Env) (hs : ∀ n, wsResp (env.script n) = true) :
    (∃ v, (addMemory (m + 1) content user_id env).1 = .ok v)
    ∨ ∃ msg, (addMemory (m + 1) content user_id env).1 = .error (.valueErr msg) := by
  rcases hE : ensureSession env with ⟨rE, envE⟩
  have hclass := ensureSession_classified env
  rw [hE] at hclass
  have hscrE : envE.script = env.script := by
    have h3 := presScript_ensureSession env
    rw [hE] at h3
    exact h3
  cases rE with
  | error e =>
    have hve : isValueErr (Except.error e : Except PyErr Unit) = true := by
      rcases hclass with h | h
      · exact absurd h (by simp)
      · exact h
    obtain ⟨msg, hm⟩ := isValueErr_ex (isValueErr_cast hve)
    right
    refine ⟨msg, ?_⟩
    simp only [addMemory, mm_run_bind, hE]
    simpa using hm
  | ok u =>
    cases u
    have hsE : ∀ n, wsResp (envE.script n) = true := by
      intro n
      rw [hscrE]
      exact hs n
    by_cases hv1 : content = "" ∨ pyStrip content = ""
    · right
      refine ⟨"Memory content cannot be empty", ?_⟩
      simp [addMemory, hE, hv1]
    · cases user_id with
      | none =>
        by_cases huv : envE.st.user_id = "" ∨ pyStrip envE.st.user_id = ""
        · right
          refine ⟨"User ID cannot be empty", ?_⟩
          simp [addMemory, hE, hv1, huv]
        · have heval : (addMemory (m + 1) content none env).1
              = ((callTool (m + 1) "add_memory"
                  (.obj [("param", .obj [("user_id", .str envE.st.user_id),
                    ("content", .str content)])]) 1 false >>= fun result =>
                  match parsePublicResult result with
                  | .error e => MM.throw e
                  | .ok v => pure v) envE).1 := by
            simp [addMemory, hE, hv1, huv]
          rw [heval]
          exact callToolParse m "add_memory" _ 1 envE hsE
      | some u =>
        by_cases hsu : sTruthy u = true
        · by_cases huv : u = "" ∨ pyStrip u = ""
          · right
            refine ⟨"User ID cannot be empty", ?_⟩
            simp [addMemory, hE, hv1, hsu, huv]
          · have heval : (addMemory (m + 1) content (some u) env).1
                = ((callTool (m + 1) "add_memory"
                    (.obj [("param", .obj [("user_id", .str u),
                      ("content", .str content)])]) 1 false >>= fun result =>
                    match parsePublicResult result with
                    | .error e => MM.throw e
                    | .ok v => pure v) envE).1 := by
              simp [addMemory, hE, hv1, hsu, huv]
            rw [heval]
            exact callToolParse m "add_memory" _ 1 envE hsE
        · have hsuf : sTruthy u = false := by simpa using hsu
          by_cases huv : envE.st.user_id = "" ∨ pyStrip envE.st.user_id = ""
          · right
            refine ⟨"User ID cannot be empty", ?_⟩
            simp [addMemory, hE, hv1, hsuf, huv]
          · have heval : (addMemory (m + 1) content (some u) env).1
                = ((callTool (m + 1) "add_memory"
                    (.obj [("param", .obj [("user_id", .str envE.st.user_id),
                      ("content", .str content)])]) 1 false >>= fun result =>
                    match parsePublicResult result with
                    | .error e => MM.throw e
                    | .ok v => pure v) envE).1 := by
              simp [addMemory, hE, hv1, hsuf, huv]
            rw [heval]
            exact callToolParse m "add_memory" _ 1 envE hsE

/-- A constant well-shaped transport: every request is answered with
HTTP 200 and a single data line carrying an empty `result` object. -/
def scriptWellShaped : Nat → NetResp :=
  fun _ => NetResp.http 200 none
    [SSELine.data (some (Json.obj [("result", Json.obj [])]))] ""

/-- Witness for `c8_amended`: on an initialized client and the constant
well-shaped transport, `add_memory "hello"` ends in a value or a
`ValueError`. -/
theorem c8_amended_witness :
    (∃ v, (addMemory 1 "hello" none
        { st := stInit, script := scriptWellShaped, idx := 0, trace := [] }).1 = .ok v)
    ∨ ∃ msg, (addMemory 1 "hello" none
        { st := stInit, script := scriptWellShaped, idx := 0, trace := [] }).1
        = .error (.valueErr msg) :=
  c8_amended 0 "hello" none
    { st := stInit, script := scriptWellShaped, idx := 0, trace := [] }
    (fun _ => rfl)
